import Mathlib

/-!
# fyne: the OpenGL ES painter, the TOML theme, the bundle command, the rectangle

The painter (`internal/painter/gl/gl_es.go`) comes first; the theme
(`theme/toml.go`), the bundle command (`cmd/fyne/internal/commands/bundle.go`) and the
rectangle (`canvas/rectangle.go`) have their own sections below.

A shallow embedding of the painter.  The GL driver is a record `GLState` holding the
trace of the calls issued so far (oldest first), the answers the driver gives to
queries (names of created objects, attribute and uniform locations, compile and
link statuses) and the draw state the painter commands (scissor test and box).
Every painter method is a function on that record.  A `float32` value is the
rational it denotes and a `float32` division rounds its quotient to the nearest
`float32`; a panic is `Except.error`.
-/

namespace Fyne

/-! ## The GL binding -/

/-- One call into the GL binding, with its arguments. -/
inductive GlCall where
  | UseProgram (program : Nat)
  | BlendFunc (sfactor dfactor : Nat)
  | BlendColor (red green blue alpha : ℚ)
  | ActiveTexture (texture : Nat)
  | BindTexture (target texture : Nat)
  | GenTextures (n : Nat)
  | DeleteTextures (n : Nat) (textures : List Nat)
  | TexParameteri (target pname : Nat) (param : Int)
  | TexImage2D (target : Nat) (level : Int) (internalformat : Int) (width height : Int)
      (border : Int) (format xtype : Nat) (pixels : List Nat)
  | DrawArrays (mode : Nat) (first count : Int)
  | GetUniformLocation (program : Nat) (name : String)
  | Uniform4f (location : Int) (v0 v1 v2 v3 : ℚ)
  | Uniform4fv (location : Int) (count : Int) (value : List ℚ)
  | Uniform1f (location : Int) (v0 : ℚ)
  | GetError
  | Viewport (x y width height : Int)
  | ClearColor (red green blue alpha : ℚ)
  | Clear (mask : Nat)
  | Scissor (x y width height : Int)
  | Enable (cap : Nat)
  | Disable (cap : Nat)
  | GenBuffers (n : Nat)
  | BindBuffer (target buffer : Nat)
  | BufferData (target : Nat) (size : Nat) (data : List ℚ) (usage : Nat)
  | GetAttribLocation (program : Nat) (name : String)
  | EnableVertexAttribArray (index : Nat)
  | VertexAttribPointerWithOffset (index : Nat) (size : Int) (xtype : Nat) (normalized : Bool)
      (stride : Int) (offset : Nat)
  | CreateShader (xtype : Nat)
  | ShaderSource (shader : Nat) (count : Int) (source : String)
  | CompileShader (shader : Nat)
  | GetShaderiv (shader pname : Nat)
  | GetShaderInfoLog (shader : Nat) (bufSize : Int)
  | CreateProgram
  | AttachShader (program shader : Nat)
  | LinkProgram (program : Nat)
  deriving DecidableEq

/-- The GL driver as the painter sees it. -/
structure GLState where
  /-- the calls issued so far, oldest first -/
  calls : List GlCall
  /-- whether the application's build type is `fyne.BuildDebug` -/
  debug : Bool
  /-- how many object names the driver has handed out -/
  created : Nat
  /-- the name the driver hands out at its k-th creation -/
  genName : Nat → Nat
  /-- the location of a uniform of a program -/
  uniformLocation : Nat → String → Int
  /-- the location of an attribute of a program -/
  attribLocation : Nat → String → Int
  /-- the `COMPILE_STATUS` the driver reports for a source of a shader type -/
  compileStatus : String → Nat → Int
  /-- the `INFO_LOG_LENGTH` the driver reports for a source of a shader type -/
  infoLogLength : String → Nat → Int
  /-- the info log the driver writes for a source of a shader type -/
  infoLog : String → Nat → String
  /-- the `LINK_STATUS` the driver holds for a program (the painter never asks) -/
  linkStatus : Nat → Int
  /-- the type each shader name was created with -/
  shaderType : Nat → Nat
  /-- the source each shader name was last given -/
  shaderSrc : Nat → String
  /-- whether the scissor test is enabled -/
  scissorTest : Bool
  /-- the scissor box last set -/
  scissorBox : Int × Int × Int × Int
  /-- the messages written by `fyne.LogError`, oldest first -/
  log : List String

namespace gl

def LINEAR : Int := 0x2601
def NEAREST : Int := 0x2600
def CLAMP_TO_EDGE : Int := 0x812F
def TEXTURE_2D : Nat := 0x0DE1
def TEXTURE0 : Nat := 0x84C0
def TEXTURE_MIN_FILTER : Nat := 0x2801
def TEXTURE_MAG_FILTER : Nat := 0x2800
def TEXTURE_WRAP_S : Nat := 0x2802
def TEXTURE_WRAP_T : Nat := 0x2803
def RGBA : Nat := 0x1908
def UNSIGNED_BYTE : Nat := 0x1401
def FLOAT : Nat := 0x1406
def ARRAY_BUFFER : Nat := 0x8892
def STATIC_DRAW : Nat := 0x88E4
def TRIANGLES : Nat := 0x0004
def TRIANGLE_STRIP : Nat := 0x0005
def ONE : Nat := 1
def SRC_ALPHA : Nat := 0x0302
def ONE_MINUS_SRC_ALPHA : Nat := 0x0303
def CONSTANT_ALPHA : Nat := 0x8003
def ONE_MINUS_CONSTANT_ALPHA : Nat := 0x8004
def SCISSOR_TEST : Nat := 0x0C11
def COLOR_BUFFER_BIT : Nat := 0x4000
def DEPTH_BUFFER_BIT : Nat := 0x0100
def VERTEX_SHADER : Nat := 0x8B31
def FRAGMENT_SHADER : Nat := 0x8B30
def COMPILE_STATUS : Nat := 0x8B81
def INFO_LOG_LENGTH : Nat := 0x8B84
def FALSE : Int := 0

/-- Record a call at the end of the trace. -/
def emit (c : GlCall) (s : GLState) : GLState :=
  { s with calls := s.calls ++ [c] }

/-- Hand out a fresh object name. -/
def fresh (s : GLState) : Nat × GLState :=
  (s.genName s.created, { s with created := s.created + 1 })

def UseProgram (program : Nat) (s : GLState) : GLState := emit (.UseProgram program) s

def BlendFunc (sfactor dfactor : Nat) (s : GLState) : GLState := emit (.BlendFunc sfactor dfactor) s

def BlendColor (red green blue alpha : ℚ) (s : GLState) : GLState :=
  emit (.BlendColor red green blue alpha) s

def ActiveTexture (texture : Nat) (s : GLState) : GLState := emit (.ActiveTexture texture) s

def BindTexture (target texture : Nat) (s : GLState) : GLState := emit (.BindTexture target texture) s

def DrawArrays (mode : Nat) (first count : Int) (s : GLState) : GLState :=
  emit (.DrawArrays mode first count) s

def GetUniformLocation (program : Nat) (name : String) (s : GLState) : Int × GLState :=
  (s.uniformLocation program name, emit (.GetUniformLocation program name) s)

def Uniform4f (location : Int) (v0 v1 v2 v3 : ℚ) (s : GLState) : GLState :=
  emit (.Uniform4f location v0 v1 v2 v3) s

def Uniform4fv (location : Int) (count : Int) (value : List ℚ) (s : GLState) : GLState :=
  emit (.Uniform4fv location count value) s

def Uniform1f (location : Int) (v0 : ℚ) (s : GLState) : GLState := emit (.Uniform1f location v0) s

def GetError (s : GLState) : GLState := emit .GetError s

/-- The binding's `GenTextures(1, &tex)`: the driver writes one fresh name. -/
def GenTextures (n : Nat) (s : GLState) : Nat × GLState :=
  fresh (emit (.GenTextures n) s)

def DeleteTextures (n : Nat) (textures : List Nat) (s : GLState) : GLState :=
  emit (.DeleteTextures n textures) s

def TexParameteri (target pname : Nat) (param : Int) (s : GLState) : GLState :=
  emit (.TexParameteri target pname param) s

def TexImage2D (target : Nat) (level internalformat width height border : Int)
    (format xtype : Nat) (pixels : List Nat) (s : GLState) : GLState :=
  emit (.TexImage2D target level internalformat width height border format xtype pixels) s

def ClearColor (red green blue alpha : ℚ) (s : GLState) : GLState :=
  emit (.ClearColor red green blue alpha) s

def Clear (mask : Nat) (s : GLState) : GLState := emit (.Clear mask) s

/-- The binding's `Scissor`: it sets the scissor box. -/
def Scissor (x y width height : Int) (s : GLState) : GLState :=
  { emit (.Scissor x y width height) s with scissorBox := (x, y, width, height) }

/-- The binding's `Enable`: enabling `SCISSOR_TEST` switches the scissor test on. -/
def Enable (cap : Nat) (s : GLState) : GLState :=
  if cap = SCISSOR_TEST then { emit (.Enable cap) s with scissorTest := true }
  else emit (.Enable cap) s

/-- The binding's `Disable`: disabling `SCISSOR_TEST` switches the scissor test off. -/
def Disable (cap : Nat) (s : GLState) : GLState :=
  if cap = SCISSOR_TEST then { emit (.Disable cap) s with scissorTest := false }
  else emit (.Disable cap) s

/-- The binding's `GenBuffers(1, &vbo)`: the driver writes one fresh name. -/
def GenBuffers (n : Nat) (s : GLState) : Nat × GLState :=
  fresh (emit (.GenBuffers n) s)

def BindBuffer (target buffer : Nat) (s : GLState) : GLState :=
  emit (.BindBuffer target buffer) s

def BufferData (target size : Nat) (data : List ℚ) (usage : Nat) (s : GLState) : GLState :=
  emit (.BufferData target size data usage) s

def GetAttribLocation (program : Nat) (name : String) (s : GLState) : Int × GLState :=
  (s.attribLocation program name, emit (.GetAttribLocation program name) s)

def EnableVertexAttribArray (index : Nat) (s : GLState) : GLState :=
  emit (.EnableVertexAttribArray index) s

def VertexAttribPointerWithOffset (index : Nat) (size : Int) (xtype : Nat) (normalized : Bool)
    (stride : Int) (offset : Nat) (s : GLState) : GLState :=
  emit (.VertexAttribPointerWithOffset index size xtype normalized stride offset) s

/-- The binding's `CreateShader`: a fresh name, remembered with its type. -/
def CreateShader (xtype : Nat) (s : GLState) : Nat × GLState :=
  let (shader, s) := fresh (emit (.CreateShader xtype) s)
  (shader, { s with shaderType := Function.update s.shaderType shader xtype })

/-- The binding's `ShaderSource`: the shader name remembers its source. -/
def ShaderSource (shader : Nat) (count : Int) (source : String) (s : GLState) : GLState :=
  { emit (.ShaderSource shader count source) s with
    shaderSrc := Function.update s.shaderSrc shader source }

def CompileShader (shader : Nat) (s : GLState) : GLState := emit (.CompileShader shader) s

/-- The binding's `GetShaderiv`: the driver's answer for the shader's source and type. -/
def GetShaderiv (shader pname : Nat) (s : GLState) : Int × GLState :=
  let s1 := emit (.GetShaderiv shader pname) s
  if pname = COMPILE_STATUS then
    (s.compileStatus (s.shaderSrc shader) (s.shaderType shader), s1)
  else if pname = INFO_LOG_LENGTH then
    (s.infoLogLength (s.shaderSrc shader) (s.shaderType shader), s1)
  else (0, s1)

/-- The binding's `GetShaderInfoLog`: the driver writes the log, at most `bufSize`
bytes with its closing NUL, over the start of the buffer; the rest of the buffer
stays as it was. -/
def GetShaderInfoLog (shader : Nat) (bufSize : Int) (buf : String) (s : GLState) :
    String × GLState :=
  let log := (s.infoLog (s.shaderSrc shader) (s.shaderType shader)).toList.take
    (bufSize - 1).toNat
  (String.mk (log ++ buf.toList.drop log.length), emit (.GetShaderInfoLog shader bufSize) s)

/-- The binding's `gl.Ptr` on a slice: the address of its first element, a panic on
an empty or nil slice, which has none. (In `imgToTexture` the slices handed to it are
never empty.) -/
def Ptr {α : Type} (data : List α) : Except String Unit :=
  match data with
  | [] => .error "reflect: slice index out of range"
  | _ :: _ => .ok ()

def CreateProgram (s : GLState) : Nat × GLState := fresh (emit .CreateProgram s)

def AttachShader (program shader : Nat) (s : GLState) : GLState :=
  emit (.AttachShader program shader) s

def LinkProgram (program : Nat) (s : GLState) : GLState := emit (.LinkProgram program) s

end gl

/-- A driver at start: nothing called, a release build, names handed out in order
from 0, every location 0, every shader compiling, every program linking. -/
def GLState.start : GLState :=
  { calls := [], debug := false, created := 0, genName := id,
    uniformLocation := fun _ _ => 0, attribLocation := fun _ _ => 0,
    compileStatus := fun _ _ => 1, infoLogLength := fun _ _ => 0, infoLog := fun _ _ => "",
    linkStatus := fun _ => 1, shaderType := fun _ => 0, shaderSrc := fun _ => "",
    scissorTest := false, scissorBox := (0, 0, 0, 0), log := [] }

/-- The scissor rectangle in force: the scissor box when the test is enabled. -/
def GLState.clip (s : GLState) : Option (Int × Int × Int × Int) :=
  if s.scissorTest then some s.scissorBox else none

/-- Go's conversion of an integer to `int32`. -/
def toInt32 (x : Int) : Int := (x + 2 ^ 31) % 2 ^ 32 - 2 ^ 31

/-- Go's conversion of an integer to `uint32`. -/
def toUint32 (x : Int) : Nat := (x % 2 ^ 32).toNat

/-- Go's conversion of an unsigned integer to `uint8`. -/
def toUint8 (x : Nat) : Nat := x % 2 ^ 8

/-- Go's slice indexing `xs[i]` with a signed index: a panic outside `0 ≤ i < len(xs)`. -/
def goIndex {α : Type} (xs : List α) (i : Int) : Except String α :=
  match i with
  | Int.ofNat n =>
    match xs.get? n with
    | some x => .ok x
    | none => .error "runtime error: index out of range"
  | Int.negSucc _ => .error "runtime error: index out of range"

/-- Round to the nearest integer, a tie going to the even one. -/
def roundHalfEven (x : ℚ) : Int :=
  if x - ⌊x⌋ < 1 / 2 then ⌊x⌋
  else if 1 / 2 < x - ⌊x⌋ then ⌊x⌋ + 1
  else if ⌊x⌋ % 2 = 0 then ⌊x⌋ else ⌊x⌋ + 1

/-- The `float32` a real number rounds to (IEEE 754 binary32, round to nearest, ties
to even): 24 significant bits at the exponent of the number, which is at least
`-126`; `none` when the result is an infinity. -/
def roundFloat32 (x : ℚ) : Option ℚ :=
  if x = 0 then some 0
  else
    let e : Int := max (Int.log 2 |x|) (-126)
    let q : ℚ := 2 ^ (e - 23)
    let y : ℚ := roundHalfEven (x / q) * q
    if 2 ^ 128 ≤ |y| then none else some y

/-- Go's conversion `float32(n)` of an unsigned integer. -/
def toFloat32 (n : Nat) : Option ℚ := roundFloat32 n

/-- Go's `float32` division: the quotient rounded to `float32`. A zero divisor gives
an infinity or a NaN, which is no rational, so the quotient exists only for a
non-zero divisor. -/
def divFloat32 (x y : ℚ) : Option ℚ :=
  if y = 0 then none else roundFloat32 (x / y)

/-- What `color.Color.RGBA()` returns: the four channels `r, g, b, a`. -/
structure Color where
  RGBA : Nat × Nat × Nat × Nat
  deriving DecidableEq

/-- Source: `esContext`. -/
structure esContext where
  deriving DecidableEq

/-- The receiver's fields. `Program` and `Texture` are `uint32`: a name is a natural
number and the conversions `uint32(p.program)`, `uint32(texture)` change nothing. -/
structure painter where
  ctx : esContext
  program : Nat
  lineProgram : Nat
  deriving DecidableEq

/-- Source: `logError`. Asks the driver for its error only in a debug build. -/
def logError (s : GLState) : GLState :=
  if s.debug then gl.GetError s else s

/-- The calls one `logError()` issues. -/
def logErrorCalls (debug : Bool) : List GlCall :=
  if debug then [GlCall.GetError] else []

/-! ## Textures -/

/-- Source: `canvas.ImageScaleSmooth`, the first value of the enumeration. -/
def canvas.ImageScaleSmooth : Int := 0

/-- Source: `textureFilterToGL`. -/
def textureFilterToGL : List Int := [gl.LINEAR, gl.NEAREST]

/-- Source: `fyne.LogError`, as far as the painter uses it: the message is logged. -/
def fyne.LogError (msg : String) (s : GLState) : GLState :=
  { s with log := s.log ++ [msg] }

/-- Source: `esContext.CreateTexture`. -/
def esContext.CreateTexture (_c : esContext) (s : GLState) : Nat × GLState :=
  gl.GenTextures 1 s

/-- Source: `painter.newTexture`. `textureFilter` is a `canvas.ImageScale`, an `int32`. -/
def painter.newTexture (p : painter) (textureFilter : Int) (s : GLState) :
    Except String (Nat × GLState) :=
  let (textureFilter, s) :=
    if textureFilter ≥ textureFilterToGL.length then
      (canvas.ImageScaleSmooth,
        fyne.LogError ("Invalid canvas.ImageScale value (" ++ toString textureFilter ++
          "), using canvas.ImageScaleSmooth as default value") s)
    else (textureFilter, s)
  let (texture, s) := p.ctx.CreateTexture s
  let s := logError s
  let s := gl.ActiveTexture gl.TEXTURE0 s
  let s := gl.BindTexture gl.TEXTURE_2D texture s
  let s := logError s
  match goIndex textureFilterToGL textureFilter with
  | .error e => .error e
  | .ok minFilter =>
    let s := gl.TexParameteri gl.TEXTURE_2D gl.TEXTURE_MIN_FILTER minFilter s
    match goIndex textureFilterToGL textureFilter with
    | .error e => .error e
    | .ok magFilter =>
      let s := gl.TexParameteri gl.TEXTURE_2D gl.TEXTURE_MAG_FILTER magFilter s
      let s := gl.TexParameteri gl.TEXTURE_2D gl.TEXTURE_WRAP_S gl.CLAMP_TO_EDGE s
      let s := gl.TexParameteri gl.TEXTURE_2D gl.TEXTURE_WRAP_T gl.CLAMP_TO_EDGE s
      let s := logError s
      .ok (texture, s)

/-- Go's `image.Point`. -/
structure Point where
  X : Int
  Y : Int
  deriving DecidableEq

/-- Go's `image.Rectangle`. Coordinates are mathematical integers: images whose
extent does not fit Go's `int` are outside the model. -/
structure Rectangle where
  Min : Point
  Max : Point
  deriving DecidableEq

/-- Go's `Rectangle.Dx`. -/
def Rectangle.Dx (r : Rectangle) : Int := r.Max.X - r.Min.X

/-- Go's `Rectangle.Dy`. -/
def Rectangle.Dy (r : Rectangle) : Int := r.Max.Y - r.Min.Y

/-- Go's `Rectangle.Size`. -/
def Rectangle.Size (r : Rectangle) : Point := ⟨r.Dx, r.Dy⟩

/-- Go's `image.Rect`: the rectangle with the given corners, put in order. -/
def image.Rect (x0 y0 x1 y1 : Int) : Rectangle :=
  let (x0, x1) := if x0 > x1 then (x1, x0) else (x0, x1)
  let (y0, y1) := if y0 > y1 then (y1, y0) else (y0, y1)
  ⟨⟨x0, y0⟩, ⟨x1, y1⟩⟩

/-- Go's `image.RGBA`: the pixel bytes, the stride and the bounds. -/
structure RGBAImage where
  Pix : List Nat
  Stride : Int
  Rect : Rectangle
  deriving DecidableEq

/-- Go's `image.NewRGBA`: a zeroed buffer of four bytes for each pixel of the rectangle. -/
def image.NewRGBA (r : Rectangle) : RGBAImage :=
  { Pix := List.replicate (4 * r.Dx * r.Dy).toNat 0, Stride := 4 * r.Dx, Rect := r }

/-- An `image.Image` by its dynamic type, as the type switch of `imgToTexture` tells
them apart: an `*image.Uniform` (its colour), an `*image.RGBA`, or any other image
(its bounds and the colour at each point). -/
inductive Image where
  | Uniform (C : Color)
  | RGBA (i : RGBAImage)
  | Other (Bounds : Rectangle) (At : Int → Int → Color)

/-- Go's `draw.Draw(dst, dst.Rect, src, image.ZP, draw.Over)` onto a freshly allocated
`dst`: the buffer is written in place, each pixel inside the bounds of `src` taking
the high bytes of the source colour at the same point, the others staying zero. -/
def draw.Draw (dst : RGBAImage) (srcBounds : Rectangle) (srcAt : Int → Int → Color) :
    RGBAImage :=
  { dst with
    Pix := (List.range dst.Pix.length).map fun (k : Nat) =>
      let x : Int := dst.Rect.Min.X + ((k : Int) % dst.Stride) / 4
      let y : Int := dst.Rect.Min.Y + (k : Int) / dst.Stride
      if srcBounds.Min.X ≤ x ∧ x < srcBounds.Max.X ∧ srcBounds.Min.Y ≤ y ∧ y < srcBounds.Max.Y then
        let (r, g, b, a) := (srcAt x y).RGBA
        toUint8 ((if k % 4 = 0 then r else if k % 4 = 1 then g else if k % 4 = 2 then b else a) >>> 8)
      else 0 }

/-- How many conversions to `*image.RGBA` an image is away from an upload. -/
def Image.conversions : Image → Nat
  | .Other _ _ => 1
  | _ => 0

/-- Source: `painter.imgToTexture`. -/
def painter.imgToTexture (p : painter) (img : Image) (textureFilter : Int) (s : GLState) :
    Except String (Nat × GLState) :=
  match img with
  | .Uniform i =>
    match p.newTexture textureFilter s with
    | .error e => .error e
    | .ok (texture, s) =>
      let (r, g, b, a) := i.RGBA
      let (r8, g8, b8, a8) := (toUint8 (r >>> 8), toUint8 (g >>> 8), toUint8 (b >>> 8),
        toUint8 (a >>> 8))
      let data := [r8, g8, b8, a8]
      let s := gl.TexImage2D gl.TEXTURE_2D 0 gl.RGBA 1 1 0 gl.RGBA gl.UNSIGNED_BYTE data s
      let s := logError s
      .ok (texture, s)
  | .RGBA i =>
    if i.Pix.length = 0 then
      .ok (0, s)
    else
      match p.newTexture textureFilter s with
      | .error e => .error e
      | .ok (texture, s) =>
        let s := gl.TexImage2D gl.TEXTURE_2D 0 gl.RGBA (toInt32 i.Rect.Size.X)
          (toInt32 i.Rect.Size.Y) 0 gl.RGBA gl.UNSIGNED_BYTE i.Pix s
        let s := logError s
        .ok (texture, s)
  | .Other bounds colourAt =>
    let rgba := image.NewRGBA (image.Rect 0 0 bounds.Dx bounds.Dy)
    let rgba := draw.Draw rgba bounds colourAt
    p.imgToTexture (.RGBA rgba) textureFilter s
termination_by img.conversions
decreasing_by simp [Image.conversions]

/-- Modelled from the spec: the texture cache of package `internal/cache`, whose
source is not among the files: at most one texture handle for each object identity. -/
abbrev TextureCache := Nat → Option Nat

/-- Modelled from the spec: `cache.GetTexture` of package `internal/cache`, the
handle cached for the object and whether there is one. -/
def cache.GetTexture (obj : Nat) (c : TextureCache) : Nat × Bool :=
  match c obj with
  | some texture => (texture, true)
  | none => (0, false)

/-- Modelled from the spec: `cache.DeleteTexture` of package `internal/cache`, which
removes the object's entry. -/
def cache.DeleteTexture (obj : Nat) (c : TextureCache) : TextureCache :=
  fun o => if o = obj then none else c o

/-- A cache holding one texture, for one object. -/
def TextureCache.single (obj texture : Nat) : TextureCache :=
  fun o => if o = obj then some texture else none

/-- Source: `painter.freeTexture`, on the texture cache and the driver. -/
def painter.freeTexture (_p : painter) (obj : Nat) (w : TextureCache × GLState) :
    TextureCache × GLState :=
  let (texture, ok) := cache.GetTexture obj w.1
  if !ok then
    w
  else
    let tex := texture
    let s := gl.DeleteTextures 1 [tex] w.2
    let s := logError s
    (cache.DeleteTexture obj w.1, s)

/-! ## Shader programs -/

/-- Go's `strings.Repeat`: a panic on a negative count. -/
def strings.Repeat (x : String) (count : Int) : Except String String :=
  if count < 0 then .error "strings: negative Repeat count"
  else .ok (String.join (List.replicate count.toNat x))

/-- Source: `compileShader`. -/
def compileShader (source : String) (shaderType : Nat) (s : GLState) :
    Except String (Nat × GLState) :=
  let (shader, s) := gl.CreateShader shaderType s
  let s := gl.ShaderSource shader 1 source s
  let s := logError s
  let s := gl.CompileShader shader s
  let s := logError s
  let (status, s) := gl.GetShaderiv shader gl.COMPILE_STATUS s
  if status = gl.FALSE then
    let (logLength, s) := gl.GetShaderiv shader gl.INFO_LOG_LENGTH s
    match strings.Repeat "\x00" (toInt32 (logLength + 1)) with
    | .error e => .error e
    | .ok info =>
      let (info, _) := gl.GetShaderInfoLog shader logLength info s
      .error ("failed to compile " ++ source ++ ": " ++ info)
  else
    .ok (shader, s)

/-- The four shader sources, bundled resources that are not among the files. -/
structure ShaderSources where
  vertexShaderSource : String
  fragmentShaderSource : String
  vertexLineShaderSource : String
  fragmentLineShaderSource : String

/-- Source: `painter.Init`. A `panic(err)` is `Except.error`. -/
def painter.Init (src : ShaderSources) (p : painter) (s : GLState) :
    Except String (painter × GLState) :=
  let p := { p with ctx := {} }
  match compileShader src.vertexShaderSource gl.VERTEX_SHADER s with
  | .error err => .error err
  | .ok (vertexShader, s) =>
  match compileShader src.fragmentShaderSource gl.FRAGMENT_SHADER s with
  | .error err => .error err
  | .ok (fragmentShader, s) =>
  let (prog, s) := gl.CreateProgram s
  let s := gl.AttachShader prog vertexShader s
  let s := gl.AttachShader prog fragmentShader s
  let s := gl.LinkProgram prog s
  let s := logError s
  let p := { p with program := prog }
  match compileShader src.vertexLineShaderSource gl.VERTEX_SHADER s with
  | .error err => .error err
  | .ok (vertexLineShader, s) =>
  match compileShader src.fragmentLineShaderSource gl.FRAGMENT_SHADER s with
  | .error err => .error err
  | .ok (fragmentLineShader, s) =>
  let (lineProg, s) := gl.CreateProgram s
  let s := gl.AttachShader lineProg vertexLineShader s
  let s := gl.AttachShader lineProg fragmentLineShader s
  let s := gl.LinkProgram lineProg s
  let s := logError s
  let p := { p with lineProgram := lineProg }
  .ok (p, s)

/-- At least one of the four shaders fails to compile: the driver reports the
`COMPILE_STATUS` `FALSE` for its source and type. -/
def anyCompileFails (src : ShaderSources) (s : GLState) : Prop :=
  s.compileStatus src.vertexShaderSource gl.VERTEX_SHADER = gl.FALSE ∨
  s.compileStatus src.fragmentShaderSource gl.FRAGMENT_SHADER = gl.FALSE ∨
  s.compileStatus src.vertexLineShaderSource gl.VERTEX_SHADER = gl.FALSE ∨
  s.compileStatus src.fragmentLineShaderSource gl.FRAGMENT_SHADER = gl.FALSE

/-- At least one of the two programs fails to link: the driver holds the `LINK_STATUS`
`FALSE` for the surface program or the line program, which are the third and the
sixth object `Init` creates. -/
def anyLinkFails (s : GLState) : Prop :=
  s.linkStatus (s.genName (s.created + 2)) = gl.FALSE ∨
  s.linkStatus (s.genName (s.created + 5)) = gl.FALSE

/-- A driver on which every shader compiles and no program links. -/
def GLState.noLink : GLState :=
  { GLState.start with linkStatus := fun _ => gl.FALSE }

/-- Four shader sources to run `Init` on. -/
def ShaderSources.sample : ShaderSources :=
  { vertexShaderSource := "vert\x00", fragmentShaderSource := "frag\x00",
    vertexLineShaderSource := "linevert\x00", fragmentLineShaderSource := "linefrag\x00" }

/-! ## Frame operations -/

/-- Source: `painter.glClearBuffer`. `background` is what `theme.BackgroundColor()`
returns; `none` when a quotient it computes does not exist. -/
def painter.glClearBuffer (p : painter) (background : Color) (s : GLState) : Option GLState :=
  let s := gl.UseProgram p.program s
  let s := logError s
  let (r, g, b, a) := background.RGBA
  (toFloat32 (255 * 255)).bind fun max16bit =>
  (toFloat32 r).bind fun fr => (divFloat32 fr max16bit).bind fun c0 =>
  (toFloat32 g).bind fun fg => (divFloat32 fg max16bit).bind fun c1 =>
  (toFloat32 b).bind fun fb => (divFloat32 fb max16bit).bind fun c2 =>
  (toFloat32 a).bind fun fa => (divFloat32 fa max16bit).bind fun c3 =>
  let s := gl.ClearColor c0 c1 c2 c3 s
  let s := gl.Clear (gl.COLOR_BUFFER_BIT ||| gl.DEPTH_BUFFER_BIT) s
  some (logError s)

/-- Source: `painter.glScissorOpen`. -/
def painter.glScissorOpen (_p : painter) (x y w h : Int) (s : GLState) : GLState :=
  let s := gl.Scissor x y w h s
  let s := gl.Enable gl.SCISSOR_TEST s
  logError s

/-- Source: `painter.glScissorClose`. -/
def painter.glScissorClose (_p : painter) (s : GLState) : GLState :=
  let s := gl.Disable gl.SCISSOR_TEST s
  logError s

/-- One call of the scissor interface. -/
inductive ScissorCall where
  | glScissorOpen (x y w h : Int)
  | glScissorClose
  deriving DecidableEq

/-- Make one call of the scissor interface. -/
def ScissorCall.run (p : painter) (s : GLState) : ScissorCall → GLState
  | .glScissorOpen x y w h => p.glScissorOpen x y w h s
  | .glScissorClose => p.glScissorClose s

/-- Make a sequence of calls of the scissor interface, in order. -/
def runScissorCalls (p : painter) (cs : List ScissorCall) (s : GLState) : GLState :=
  cs.foldl (ScissorCall.run p) s

/-- Source: `painter.glCreateBuffer`. `Except.error` is the panic of `gl.Ptr`. -/
def painter.glCreateBuffer (p : painter) (points : List ℚ) (s : GLState) :
    Except String (Nat × GLState) :=
  let s := gl.UseProgram p.program s
  let (vbo, s) := gl.GenBuffers 1 s
  let s := logError s
  let s := gl.BindBuffer gl.ARRAY_BUFFER vbo s
  let s := logError s
  match gl.Ptr points with
  | .error e => .error e
  | .ok _ =>
  let s := gl.BufferData gl.ARRAY_BUFFER (4 * points.length) points gl.STATIC_DRAW s
  let s := logError s
  let (loc, s) := gl.GetAttribLocation p.program "vert\x00" s
  let vertAttrib := toUint32 loc
  let s := gl.EnableVertexAttribArray vertAttrib s
  let s := gl.VertexAttribPointerWithOffset vertAttrib 3 gl.FLOAT false (5 * 4) 0 s
  let s := logError s
  let (loc, s) := gl.GetAttribLocation p.program "vertTexCoord\x00" s
  let texCoordAttrib := toUint32 loc
  let s := gl.EnableVertexAttribArray texCoordAttrib s
  let s := gl.VertexAttribPointerWithOffset texCoordAttrib 2 gl.FLOAT false (5 * 4) (3 * 4) s
  let s := logError s
  .ok (vbo, s)

/-- Source: `painter.glCreateLineBuffer`. `Except.error` is the panic of `gl.Ptr`. -/
def painter.glCreateLineBuffer (p : painter) (points : List ℚ) (s : GLState) :
    Except String (Nat × GLState) :=
  let s := gl.UseProgram p.lineProgram s
  let (vbo, s) := gl.GenBuffers 1 s
  let s := logError s
  let s := gl.BindBuffer gl.ARRAY_BUFFER vbo s
  let s := logError s
  match gl.Ptr points with
  | .error e => .error e
  | .ok _ =>
  let s := gl.BufferData gl.ARRAY_BUFFER (4 * points.length) points gl.STATIC_DRAW s
  let s := logError s
  let (loc, s) := gl.GetAttribLocation p.lineProgram "vert\x00" s
  let vertAttrib := toUint32 loc
  let s := gl.EnableVertexAttribArray vertAttrib s
  let s := gl.VertexAttribPointerWithOffset vertAttrib 2 gl.FLOAT false (4 * 4) 0 s
  let s := logError s
  let (loc, s) := gl.GetAttribLocation p.lineProgram "normal\x00" s
  let normalAttrib := toUint32 loc
  let s := gl.EnableVertexAttribArray normalAttrib s
  let s := gl.VertexAttribPointerWithOffset normalAttrib 2 gl.FLOAT false (4 * 4) (2 * 4) s
  let s := logError s
  .ok (vbo, s)

/-- Source: `painter.glDrawTexture`. -/
def painter.glDrawTexture (p : painter) (texture : Nat) (alpha : ℚ) (s : GLState) : GLState :=
  let s := gl.UseProgram p.program s
  let s :=
    if alpha ≠ 1.0 then
      let s := gl.BlendColor 0 0 0 alpha s
      gl.BlendFunc gl.CONSTANT_ALPHA gl.ONE_MINUS_CONSTANT_ALPHA s
    else
      gl.BlendFunc gl.ONE gl.ONE_MINUS_SRC_ALPHA s
  let s := logError s
  let s := gl.ActiveTexture gl.TEXTURE0 s
  let s := gl.BindTexture gl.TEXTURE_2D texture s
  let s := logError s
  let s := gl.DrawArrays gl.TRIANGLE_STRIP 0 4 s
  logError s

/-- Source: `painter.glDrawLine`. `none` when a quotient it computes does not exist. -/
def painter.glDrawLine (p : painter) (width : ℚ) (col : Color) (feather : ℚ) (s : GLState) :
    Option GLState :=
  let s := gl.UseProgram p.lineProgram s
  let s := gl.BlendFunc gl.SRC_ALPHA gl.ONE_MINUS_SRC_ALPHA s
  let s := logError s
  let (colorUniform, s) := gl.GetUniformLocation p.lineProgram "color\x00" s
  let (r, g, b, a) := col.RGBA
  let colour : Option GLState :=
    if a = 0 then
      some (gl.Uniform4f colorUniform 0 0 0 0 s)
    else
      (toFloat32 a).bind fun alpha =>
      (toFloat32 r).bind fun fr => (divFloat32 fr alpha).bind fun c0 =>
      (toFloat32 g).bind fun fg => (divFloat32 fg alpha).bind fun c1 =>
      (toFloat32 b).bind fun fb => (divFloat32 fb alpha).bind fun c2 =>
      (divFloat32 alpha 0xffff).bind fun c3 =>
      some (gl.Uniform4fv colorUniform 1 [c0, c1, c2, c3] s)
  colour.map fun s =>
    let (lineWidthUniform, s) := gl.GetUniformLocation p.lineProgram "lineWidth\x00" s
    let s := gl.Uniform1f lineWidthUniform width s
    let (featherUniform, s) := gl.GetUniformLocation p.lineProgram "feather\x00" s
    let s := gl.Uniform1f featherUniform feather s
    let s := gl.DrawArrays gl.TRIANGLES 0 6 s
    logError s

/-! ## Reading a trace -/

/-- Whether a call is a `BlendFunc`. -/
def GlCall.isBlendFunc : GlCall → Bool
  | .BlendFunc _ _ => true
  | _ => false

/-- The calls issued after the first `n`. -/
def GLState.callsSince (s : GLState) (n : Nat) : List GlCall := s.calls.drop n

/-- The vertex layout a trace configures: for each `VertexAttribPointerWithOffset`, in
order, the number of components, the stride in bytes and the offset in bytes. -/
def attribLayout : List GlCall → List (Int × Int × Nat)
  | [] => []
  | .VertexAttribPointerWithOffset _ size _ _ stride offset :: cs =>
    (size, stride, offset) :: attribLayout cs
  | _ :: cs => attribLayout cs

/-- Whether attributes of 4-byte floats, laid out from byte `start` on, follow one
another without gap or overlap and end exactly at the stride they all declare. -/
def tilesStride (start : Int) (stride : Int) : List (Int × Int × Nat) → Bool
  | [] => start == stride
  | (size, st, offset) :: rest =>
    st == stride && (offset : Int) == start && tilesStride (start + 4 * size) stride rest

/-! ## The TOML theme (`theme/toml.go`) -/

/-- A Go string: the sequence of its bytes. -/
abbrev GoString := List Nat

/-- The bytes of a text of ASCII characters. -/
def GoString.ascii (s : String) : GoString := s.toList.map Char.toNat

/-- Go's `utf8.RuneError`. -/
def utf8.RuneError : Nat := 0xFFFD

/-- Go's `utf8.DecodeRuneInString`: the first rune of the bytes and its width; a
byte that starts no valid encoding gives `RuneError` with width 1. -/
def utf8.DecodeRune (p : List Nat) : Nat × Nat :=
  match p with
  | [] => (utf8.RuneError, 0)
  | p0 :: rest =>
    if p0 < 0x80 then (p0, 1)
    else if p0 < 0xC2 then (utf8.RuneError, 1)
    else if p0 < 0xE0 then
      match rest with
      | b1 :: _ =>
        if b1 < 0x80 ∨ 0xBF < b1 then (utf8.RuneError, 1)
        else (((p0 &&& 0x1F) <<< 6) ||| (b1 &&& 0x3F), 2)
      | _ => (utf8.RuneError, 1)
    else if p0 < 0xF0 then
      match rest with
      | b1 :: b2 :: _ =>
        if b1 < (if p0 = 0xE0 then 0xA0 else 0x80) ∨ (if p0 = 0xED then 0x9F else 0xBF) < b1 then
          (utf8.RuneError, 1)
        else if b2 < 0x80 ∨ 0xBF < b2 then (utf8.RuneError, 1)
        else (((p0 &&& 0x0F) <<< 12) ||| ((b1 &&& 0x3F) <<< 6) ||| (b2 &&& 0x3F), 3)
      | _ => (utf8.RuneError, 1)
    else if p0 < 0xF5 then
      match rest with
      | b1 :: b2 :: b3 :: _ =>
        if b1 < (if p0 = 0xF0 then 0x90 else 0x80) ∨ (if p0 = 0xF4 then 0x8F else 0xBF) < b1 then
          (utf8.RuneError, 1)
        else if b2 < 0x80 ∨ 0xBF < b2 then (utf8.RuneError, 1)
        else if b3 < 0x80 ∨ 0xBF < b3 then (utf8.RuneError, 1)
        else (((p0 &&& 0x07) <<< 18) ||| ((b1 &&& 0x3F) <<< 12) ||| ((b2 &&& 0x3F) <<< 6)
          ||| (b3 &&& 0x3F), 4)
      | _ => (utf8.RuneError, 1)
    else (utf8.RuneError, 1)

/-- The runes of the bytes, after skipping the first `skip` bytes. -/
def runesFrom : Nat → List Nat → List Nat
  | _, [] => []
  | skip + 1, _ :: rest => runesFrom skip rest
  | 0, b :: rest =>
    (utf8.DecodeRune (b :: rest)).1 :: runesFrom ((utf8.DecodeRune (b :: rest)).2 - 1) rest

/-- Go's conversion `[]rune(s)` of a string. -/
def toRunes (s : GoString) : List Nat := runesFrom 0 s

/-- Go's `utf8.AppendRune`: the bytes that encode one rune. -/
def utf8.EncodeRune (r : Nat) : List Nat :=
  if r ≤ 0x7F then [r]
  else if r ≤ 0x7FF then [0xC0 ||| (r >>> 6), 0x80 ||| (r &&& 0x3F)]
  else if r > 0x10FFFF ∨ (0xD800 ≤ r ∧ r ≤ 0xDFFF) then [0xEF, 0xBF, 0xBD]
  else if r ≤ 0xFFFF then
    [0xE0 ||| (r >>> 12), 0x80 ||| ((r >>> 6) &&& 0x3F), 0x80 ||| (r &&& 0x3F)]
  else
    [0xF0 ||| (r >>> 18), 0x80 ||| ((r >>> 12) &&& 0x3F), 0x80 ||| ((r >>> 6) &&& 0x3F),
      0x80 ||| (r &&& 0x3F)]

/-- Go's conversion `string(rs)` of a slice of runes. -/
def ofRunes (rs : List Nat) : GoString := (rs.map utf8.EncodeRune).flatten

/-- Go's `hex.InvalidByteError` and `hex.ErrLength`, and the error `hexColor.color`
makes itself. -/
inductive GoError where
  | InvalidByteError (b : Nat)
  | ErrLength
  | invalidColorFormat (h : GoString)
  deriving DecidableEq

/-- The value of a hexadecimal digit, `none` for any other byte. -/
def fromHexChar (c : Nat) : Option Nat :=
  if 0x30 ≤ c ∧ c ≤ 0x39 then some (c - 0x30)
  else if 0x61 ≤ c ∧ c ≤ 0x66 then some (c - 0x61 + 10)
  else if 0x41 ≤ c ∧ c ≤ 0x46 then some (c - 0x41 + 10)
  else none

/-- Go's `hex.DecodeString`: one byte for each pair of hexadecimal digits; the first
byte that is no digit, or else an odd length, is an error. -/
def hex.DecodeString : GoString → Except GoError (List Nat)
  | [] => .ok []
  | [p] =>
    match fromHexChar p with
    | none => .error (.InvalidByteError p)
    | some _ => .error .ErrLength
  | p :: q :: rest =>
    match fromHexChar p with
    | none => .error (.InvalidByteError p)
    | some a =>
      match fromHexChar q with
      | none => .error (.InvalidByteError q)
      | some b =>
        match hex.DecodeString rest with
        | .error e => .error e
        | .ok ds => .ok ((a * 16 + b) :: ds)

/-- A `color.Color` as the theme hands it out: `nil`, `color.Transparent`, a
`*color.NRGBA` with its four bytes, or a colour of the fallback theme. -/
inductive ColorValue where
  | nil
  | Transparent
  | NRGBA (R G B A : Nat)
  | Other (c : Color)
  deriving DecidableEq

/-- Source: `hexColor`. -/
abbrev hexColor := GoString

/-- The last steps of `hexColor.color`: the digits are decoded and the colour built. -/
def hexColor.decode (data : hexColor) : Except String (ColorValue × Option GoError) :=
  match hex.DecodeString data with
  | .error err => .ok (.nil, some err)
  | .ok digits =>
    match goIndex digits 0, goIndex digits 1, goIndex digits 2 with
    | .ok r, .ok g, .ok b =>
      if digits.length = 4 then
        match goIndex digits 3 with
        | .ok a => .ok (.NRGBA r g b a, none)
        | .error e => .error e
      else .ok (.NRGBA r g b 0xff, none)
    | .error e, _, _ => .error e
    | _, .error e, _ => .error e
    | _, _, .error e => .error e

/-- The composite literal `[]rune{v[i], ...}`: the runes at the indices, a panic at
the first index out of range. -/
def runesAt (v : List Nat) (indices : List Int) : Except String (List Nat) :=
  indices.mapM (goIndex v)

/-- The case `4` of `hexColor.color`, which the case `5` falls through to. -/
def hexColor.color4 (data : hexColor) : Except String (ColorValue × Option GoError) :=
  match goIndex data 0 with
  | .error e => .error e
  | .ok d0 =>
    if d0 = 0x23 then
      let v := toRunes (data.drop 1)
      match runesAt v [0, 0, 1, 1, 2, 2] with
      | .error e => .error e
      | .ok rs => hexColor.decode (ofRunes rs)
    else
      let v := toRunes data
      match runesAt v [0, 0, 1, 1, 2, 2, 3, 3] with
      | .error e => .error e
      | .ok rs => hexColor.decode (ofRunes rs)

/-- Source: `hexColor.color`. The result is the pair `(color.Color, error)` it returns;
`Except.error` is a panic. -/
def hexColor.color (h : hexColor) : Except String (ColorValue × Option GoError) :=
  if h.length = 8 ∨ h.length = 6 then
    hexColor.decode h
  else if h.length = 9 ∨ h.length = 7 then
    hexColor.decode (h.drop 1)
  else if h.length = 5 then
    hexColor.color4 (h.drop 1)
  else if h.length = 4 then
    hexColor.color4 h
  else if h.length = 3 then
    let v := toRunes h
    match runesAt v [0, 0, 1, 1, 2, 2] with
    | .error e => .error e
    | .ok rs => hexColor.decode (ofRunes rs)
  else
    .ok (.Transparent, some (.invalidColorFormat h))

/-- Source: `schema`. A Go map is the partial function it stands for. -/
structure schema where
  Colors : GoString → Option hexColor
  DarkColors : GoString → Option hexColor
  LightColors : GoString → Option hexColor
  Sizes : GoString → Option ℚ

/-- The two methods of a `fyne.Theme` that `tomlTheme` answers itself. -/
structure Theme where
  Color : GoString → Nat → ColorValue
  Size : GoString → ℚ

/-- Source: `tomlTheme`. -/
structure tomlTheme where
  data : schema
  fallback : Theme

/-- The constant `theme.VariantDark`, declared in `theme/theme.go`. -/
def VariantDark : Nat := 0

/-- The constant `theme.VariantLight`, declared in `theme/theme.go`. -/
def VariantLight : Nat := 1

/-- One lookup of `tomlTheme.Color`: the colour when the entry is there and parses,
else the errors logged so far with the one of this entry, if any. -/
def tomlTheme.lookup (m : GoString → Option hexColor) (name : GoString)
    (log : List GoError) : Except String (Option ColorValue × List GoError) :=
  match m name with
  | some val =>
    match hexColor.color val with
    | .error e => .error e
    | .ok (_, some err) => .ok (none, log ++ [err])
    | .ok (c, none) => .ok (some c, log)
  | none => .ok (none, log)

/-- Source: `tomlTheme.Color`. The result is the colour returned and the errors given
to `fyne.LogError`; `Except.error` is a panic. -/
def tomlTheme.Color (t : tomlTheme) (name : GoString) (variant : Nat) :
    Except String (ColorValue × List GoError) :=
  let first : Except String (Option ColorValue × List GoError) :=
    if variant = VariantLight then tomlTheme.lookup t.data.LightColors name []
    else if variant = VariantDark then tomlTheme.lookup t.data.DarkColors name []
    else .ok (none, [])
  match first with
  | .error e => .error e
  | .ok (some c, log) => .ok (c, log)
  | .ok (none, log) =>
    match tomlTheme.lookup t.data.Colors name log with
    | .error e => .error e
    | .ok (some c, log) => .ok (c, log)
    | .ok (none, log) => .ok (t.fallback.Color name variant, log)

/-- Source: `tomlTheme.Size`. -/
def tomlTheme.Size (t : tomlTheme) (name : GoString) : ℚ :=
  match t.data.Sizes name with
  | some val => val
  | none => t.fallback.Size name

/-- Whether a byte is a hexadecimal digit. -/
def isHexDigit (c : Nat) : Prop := (fromHexChar c).isSome

instance isHexDigit.decidable (c : Nat) : Decidable (isHexDigit c) := by
  unfold isHexDigit
  infer_instance

/-- The value of a byte as a hexadecimal digit, 0 for any other byte. -/
def hexVal (c : Nat) : Nat := (fromHexChar c).getD 0

/-- A theme that answers every colour with `color.Transparent` and every size with 0. -/
def Theme.blank : Theme := { Color := fun _ _ => .Transparent, Size := fun _ => 0 }

/-- A schema whose only entry is the colour `primary`, the three bytes of the euro sign. -/
def schema.euro : schema :=
  { Colors := fun n => if n = GoString.ascii "primary" then some [0xE2, 0x82, 0xAC] else none,
    DarkColors := fun _ => none, LightColors := fun _ => none, Sizes := fun _ => none }

/-- The map of `tomlTheme.Color` for a variant alone: `LightColors` for the light
variant, `DarkColors` for the dark one, no map for any other variant. -/
def schema.variantColors (d : schema) (variant : Nat) : GoString → Option hexColor :=
  if variant = VariantLight then d.LightColors
  else if variant = VariantDark then d.DarkColors
  else fun _ => none

/-- The colour a string of 3, 4, 6 or 8 hexadecimal digits stands for: each digit of
a string of 3 or 4 is doubled first, then `R`, `G`, `B` and `A` are the consecutive
bytes, `A` being `0xff` when there are only three. -/
def hexColor.meaning (s : GoString) : ColorValue :=
  let d := if s.length = 3 ∨ s.length = 4 then (s.map fun c => [c, c]).flatten else s
  let byte (i : Nat) : Nat := hexVal (d.getD (2 * i) 0) * 16 + hexVal (d.getD (2 * i + 1) 0)
  .NRGBA (byte 0) (byte 1) (byte 2) (if d.length = 8 then byte 3 else 0xff)

/-! ## The bundle command (`cmd/fyne/internal/commands/bundle.go`)

File names and other texts are Lean strings: a Go string is taken by the runes it
decodes to, which is what `strings.Title` and the regular expression work on. -/

/-- Source: `fileHeader`. -/
def fileHeader : String :=
  "// auto-generated\n" ++ "// Code generated by '$ fyne bundle'. DO NOT EDIT."

/-- The tables of Go's `unicode` package for the characters above U+007F. -/
structure unicode.Tables where
  ToTitle : Char → Char
  IsLetter : Char → Bool
  IsDigit : Char → Bool
  IsSpace : Char → Bool

/-- Go's `unicode.ToTitle`: upper case for ASCII, the table above it. -/
def unicode.ToTitle (u : unicode.Tables) (r : Char) : Char :=
  if r.toNat ≤ 0x7F then
    if 'a' ≤ r ∧ r ≤ 'z' then Char.ofNat (r.toNat - 32) else r
  else u.ToTitle r

/-- Go's `strings.isSeparator`. -/
def strings.isSeparator (u : unicode.Tables) (r : Char) : Bool :=
  if r.toNat ≤ 0x7F then
    if '0' ≤ r ∧ r ≤ '9' then false
    else if 'a' ≤ r ∧ r ≤ 'z' then false
    else if 'A' ≤ r ∧ r ≤ 'Z' then false
    else if r = '_' then false
    else true
  else if u.IsLetter r || u.IsDigit r then false
  else u.IsSpace r

/-- The mapping of `strings.Title` over the runes, `prev` being the rune before. -/
def strings.titleFrom (u : unicode.Tables) : Char → List Char → List Char
  | _, [] => []
  | prev, r :: rest =>
    (if strings.isSeparator u prev then unicode.ToTitle u r else r) ::
      strings.titleFrom u r rest

/-- Go's `strings.Title`: every rune that follows a separator, and the first one, is
mapped to its title case. -/
def strings.Title (u : unicode.Tables) (s : String) : String :=
  String.mk (strings.titleFrom u ' ' s.toList)

/-- Whether a character is in the class `[a-zA-Z0-9]`. -/
def isAlnum (c : Char) : Bool :=
  ('a' ≤ c ∧ c ≤ 'z') || ('A' ≤ c ∧ c ≤ 'Z') || ('0' ≤ c ∧ c ≤ '9')

/-- The scan of `filenameRegex.ReplaceAllString`: `inMatch` tells whether the
character before belongs to a match of `[^a-zA-Z0-9]+`, which is then extended;
a new match is replaced by `repl`. -/
def filenameRegex.replaceFrom (repl : List Char) : Bool → List Char → List Char
  | _, [] => []
  | inMatch, c :: rest =>
    if isAlnum c then c :: filenameRegex.replaceFrom repl false rest
    else (if inMatch then [] else repl) ++ filenameRegex.replaceFrom repl true rest

/-- Source: `filenameRegex`, the expression `[^a-zA-Z0-9]+`, with Go's
`ReplaceAllString` for a replacement that holds no `$`: every match, leftmost and
longest, is replaced. -/
def filenameRegex.ReplaceAllString (src repl : String) : String :=
  String.mk (filenameRegex.replaceFrom repl.toList false src.toList)

/-- Source: `sanitiseName`. The argument `pfx` is the source's `prefix`. -/
def sanitiseName (u : unicode.Tables) (file pfx : String) : String :=
  let titled := strings.Title u file
  let name := filenameRegex.ReplaceAllString titled ""
  pfx ++ name

/-- The scan of `path.Ext` from the end of the path: `acc` is what was passed. -/
def path.extFrom : List Char → List Char → List Char
  | [], _ => []
  | c :: before, acc =>
    if c = '/' then [] else if c = '.' then c :: acc else path.extFrom before (c :: acc)

/-- Go's `path.Ext`: the suffix from the last dot of the last element of the path. -/
def path.Ext (p : String) : String := String.mk (path.extFrom p.toList.reverse [])

/-- Go's `path.Base`: the last element of the path, trailing slashes removed. -/
def path.Base (p : String) : String :=
  if p = "" then "."
  else
    let stripped := (p.toList.reverse.dropWhile fun c => c = '/').reverse
    let last := (stripped.reverse.takeWhile fun c => c ≠ '/').reverse
    if stripped.contains '/' then (if last = [] then "/" else String.mk last)
    else if stripped = [] then "/" else String.mk stripped

/-- A resource as `fyne.LoadResourceFromPath` returns it. -/
structure Resource where
  Name : String
  Content : List Nat
  deriving DecidableEq

/-- What the bundler finds outside itself: the directory listings of `os.ReadDir`
(the names of the entries, in its order), the files `fyne.LoadResourceFromPath` can
load, Go's `path.Clean` and the tables of `unicode`. -/
structure BundleEnv where
  ReadDir : String → Except String (List String)
  LoadResourceFromPath : String → Except String Resource
  Clean : String → String
  unicode : unicode.Tables

/-- Go's `path.Join`: the elements from the first non-empty one on, joined by
slashes and cleaned. -/
def path.Join (env : BundleEnv) (elem : List String) : String :=
  match elem.dropWhile fun e => e = "" with
  | [] => ""
  | rest => env.Clean (String.intercalate "/" rest)

/-- One write to the output file: a `WriteString`, or the `Fprintf` of a resource
with the variable name, the resource name and the content. -/
inductive Written where
  | WriteString (s : String)
  | Fprintf (name resName : String) (content : List Nat)
  deriving DecidableEq

/-- The output file and the log of `fyne.LogError`, oldest first. -/
structure BundleOut where
  written : List Written
  log : List String
  deriving DecidableEq

/-- Source: `Bundler`. The field `pfx` is the source's `prefix`. -/
structure Bundler where
  name : String
  pkg : String
  out : String
  pfx : String
  noheader : Bool
  deriving DecidableEq

/-- Source: `writeHeader`. -/
def writeHeader (pkg : String) (out : BundleOut) : BundleOut :=
  { out with written := out.written ++
      [.WriteString fileHeader, .WriteString "\n\npackage ", .WriteString pkg,
       .WriteString "\n\nimport \"fyne.io/fyne/v2\"\n\n"] }

/-- Source: `writeResource`. -/
def writeResource (env : BundleEnv) (file name : String) (f : BundleOut) : BundleOut :=
  match env.LoadResourceFromPath file with
  | .error _ => { f with log := f.log ++ ["Unable to load file " ++ file] }
  | .ok res => { f with written := f.written ++ [.Fprintf name res.Name res.Content] }

/-- Source: `Bundler.doBundle`. -/
def Bundler.doBundle (env : BundleEnv) (b : Bundler) (filepath : String) (out : BundleOut) :
    Bundler × BundleOut :=
  let out := if !b.noheader then writeHeader b.pkg out else out
  let b := if b.name = "" then
      { b with name := sanitiseName env.unicode (path.Base filepath) b.pfx }
    else b
  (b, writeResource env filepath b.name out)

/-- The loop of `Bundler.dirBundle` over the entries from index `i` on. -/
def Bundler.dirBundleFrom (env : BundleEnv) (dirpath : String) :
    Nat → List String → Bundler × BundleOut → Bundler × BundleOut
  | _, [], st => st
  | i, filename :: rest, (b, out) =>
    if path.Ext filename = ".go" then
      Bundler.dirBundleFrom env dirpath (i + 1) rest (b, out)
    else
      let b := { b with name := "" }
      let (b, out) := b.doBundle env (path.Join env [dirpath, filename]) out
      let b := if i = 0 then { b with noheader := true } else b
      Bundler.dirBundleFrom env dirpath (i + 1) rest (b, out)

/-- Source: `Bundler.dirBundle`. The first component is the error returned. -/
def Bundler.dirBundle (env : BundleEnv) (b : Bundler) (dirpath : String) (out : BundleOut) :
    Option String × Bundler × BundleOut :=
  match env.ReadDir dirpath with
  | .error err =>
    (some err, b, { out with log := out.log ++ ["Error reading specified directory"] })
  | .ok files =>
    let (b, out) := Bundler.dirBundleFrom env dirpath 0 files (b, out)
    (none, b, out)

/-- How many times the first line of the file header was written. -/
def headerCount (ws : List Written) : Nat := ws.count (.WriteString fileHeader)

/-- Tables that leave every character above U+007F as it is and call none of them a
letter, a digit or a space. -/
def unicode.Tables.plain : unicode.Tables :=
  { ToTitle := id, IsLetter := fun _ => false, IsDigit := fun _ => false,
    IsSpace := fun _ => false }

/-- A directory `res` holding `a.go`, `b.png` and `c.png`, every file loading as an
empty resource under its base name. -/
def BundleEnv.sample : BundleEnv :=
  { ReadDir := fun d => if d = "res" then .ok ["a.go", "b.png", "c.png"] else .error "no such directory",
    LoadResourceFromPath := fun f => .ok ⟨path.Base f, []⟩,
    Clean := id, unicode := unicode.Tables.plain }

/-- The bundler the command line starts with. -/
def Bundler.start : Bundler :=
  { name := "", pkg := "main", out := "", pfx := "resource", noheader := false }

/-! ## The rectangle (`canvas/rectangle.go`) -/

/-- Source: `fyne.Size`, with `float32` as the rational it denotes. -/
structure fyne.Size where
  Width : ℚ
  Height : ℚ
  deriving DecidableEq

/-- Source: `fyne.Position`, with `float32` as the rational it denotes. -/
structure fyne.Position where
  X : ℚ
  Y : ℚ
  deriving DecidableEq

/-- Modelled from the spec: `baseObject` of `canvas/base.go`, which is not among the
files: the size, position and visibility state of a primitive, and its minimum size. -/
structure canvas.baseObject where
  size : fyne.Size
  position : fyne.Position
  Hidden : Bool
  min : fyne.Size
  deriving DecidableEq

/-- Modelled from the spec: `baseObject.Size` of `canvas/base.go`, the current size. -/
def canvas.baseObject.Size (r : canvas.baseObject) : fyne.Size := r.size

/-- Modelled from the spec: `baseObject.Resize` of `canvas/base.go`, which sets the
current size. -/
def canvas.baseObject.Resize (r : canvas.baseObject) (size : fyne.Size) : canvas.baseObject :=
  { r with size := size }

/-- Modelled from the spec: `canvas.Refresh` of `canvas/canvas.go`, which asks for the
object to be redrawn: the count of the refreshes asked for goes up by one. -/
def canvas.Refresh (refreshes : Nat) : Nat := refreshes + 1

/-- Source: `canvas.Rectangle`. -/
structure canvas.Rectangle where
  baseObject : canvas.baseObject
  FillColor : ColorValue
  StrokeColor : ColorValue
  StrokeWidth : ℚ
  CornerRadius : ℚ
  deriving DecidableEq

/-- Source: `Rectangle.Resize`, on the rectangle and the count of refreshes. -/
def canvas.Rectangle.Resize (r : canvas.Rectangle) (s : fyne.Size) (refreshes : Nat) :
    canvas.Rectangle × Nat :=
  if s = r.baseObject.Size then
    (r, refreshes)
  else
    let r := { r with baseObject := r.baseObject.Resize s }
    if r.StrokeWidth = 0 then
      (r, refreshes)
    else
      (r, canvas.Refresh refreshes)

/-! ## Theorems -/

theorem float_one : (1.0 : ℚ) = 1 := by norm_num

theorem emit_calls (c : GlCall) (s : GLState) : (gl.emit c s).calls = s.calls ++ [c] := rfl

theorem emit_debug (c : GlCall) (s : GLState) : (gl.emit c s).debug = s.debug := rfl

theorem logError_calls (s : GLState) :
    (logError s).calls = s.calls ++ logErrorCalls s.debug := by
  unfold logError logErrorCalls gl.GetError gl.emit
  cases h : s.debug <;> simp

theorem logError_debug (s : GLState) : (logError s).debug = s.debug := by
  unfold logError gl.GetError gl.emit
  cases h : s.debug <;> simp [h]

theorem logError_fields (s : GLState) :
    (logError s).created = s.created ∧ (logError s).genName = s.genName ∧
    (logError s).uniformLocation = s.uniformLocation ∧
    (logError s).attribLocation = s.attribLocation ∧
    (logError s).compileStatus = s.compileStatus ∧
    (logError s).infoLogLength = s.infoLogLength ∧ (logError s).infoLog = s.infoLog ∧
    (logError s).linkStatus = s.linkStatus ∧ (logError s).shaderType = s.shaderType ∧
    (logError s).shaderSrc = s.shaderSrc ∧ (logError s).scissorTest = s.scissorTest ∧
    (logError s).scissorBox = s.scissorBox ∧ (logError s).log = s.log := by
  unfold logError gl.GetError gl.emit
  cases h : s.debug <;> simp

theorem logError_created (s : GLState) : (logError s).created = s.created :=
  (logError_fields s).1

theorem logError_genName (s : GLState) : (logError s).genName = s.genName :=
  (logError_fields s).2.1

theorem logError_uniformLocation (s : GLState) : (logError s).uniformLocation = s.uniformLocation :=
  (logError_fields s).2.2.1

theorem logError_attribLocation (s : GLState) : (logError s).attribLocation = s.attribLocation :=
  (logError_fields s).2.2.2.1

theorem logError_compileStatus (s : GLState) : (logError s).compileStatus = s.compileStatus :=
  (logError_fields s).2.2.2.2.1

theorem logError_infoLogLength (s : GLState) : (logError s).infoLogLength = s.infoLogLength :=
  (logError_fields s).2.2.2.2.2.1

theorem logError_infoLog (s : GLState) : (logError s).infoLog = s.infoLog :=
  (logError_fields s).2.2.2.2.2.2.1

theorem logError_linkStatus (s : GLState) : (logError s).linkStatus = s.linkStatus :=
  (logError_fields s).2.2.2.2.2.2.2.1

theorem logError_shaderType (s : GLState) : (logError s).shaderType = s.shaderType :=
  (logError_fields s).2.2.2.2.2.2.2.2.1

theorem logError_shaderSrc (s : GLState) : (logError s).shaderSrc = s.shaderSrc :=
  (logError_fields s).2.2.2.2.2.2.2.2.2.1

theorem logError_scissorTest (s : GLState) : (logError s).scissorTest = s.scissorTest :=
  (logError_fields s).2.2.2.2.2.2.2.2.2.2.1

theorem logError_scissorBox (s : GLState) : (logError s).scissorBox = s.scissorBox :=
  (logError_fields s).2.2.2.2.2.2.2.2.2.2.2.1

theorem logError_log (s : GLState) : (logError s).log = s.log :=
  (logError_fields s).2.2.2.2.2.2.2.2.2.2.2.2

theorem roundHalfEven_sub_le (x : ℚ) : |(roundHalfEven x : ℚ) - x| ≤ 1 / 2 := by
  have h1 : (⌊x⌋ : ℚ) ≤ x := Int.floor_le x
  have h2 : x < ⌊x⌋ + 1 := Int.lt_floor_add_one x
  unfold roundHalfEven
  split_ifs with ha hb hc
  · rw [abs_le]; constructor <;> linarith
  · rw [abs_le]; push_cast; constructor <;> linarith
  · rw [abs_le]; constructor <;> linarith
  · rw [abs_le]; push_cast; constructor <;> linarith

theorem roundHalfEven_eq (x : ℚ) (n : Int) (h : |x - n| < 1 / 2) : roundHalfEven x = n := by
  rw [abs_lt] at h
  have hf : ⌊x⌋ = n ∨ ⌊x⌋ = n - 1 := by
    have h1 : n - 1 ≤ ⌊x⌋ := by
      rw [Int.le_floor]; push_cast; linarith
    have h2 : ⌊x⌋ < n + 1 := by
      rw [Int.floor_lt]; push_cast; linarith
    omega
  unfold roundHalfEven
  rcases hf with hf | hf
  · rw [hf, if_pos (by linarith)]
  · rw [hf]
    have e : ((n - 1 : ℤ) : ℚ) = (n : ℚ) - 1 := by push_cast; ring
    rw [e, if_neg (by linarith), if_pos (by linarith)]
    ring

theorem log_two_eq (x : ℚ) (e : Int) (h1 : (2 : ℚ) ^ e ≤ x) (h2 : x < 2 ^ (e + 1)) :
    Int.log 2 x = e := by
  have hx : 0 < x := lt_of_lt_of_le (by positivity) h1
  have a : e ≤ Int.log 2 x := by
    rw [← Int.zpow_le_iff_le_log (by norm_num) hx]
    simpa using h1
  have b : Int.log 2 x < e + 1 := by
    rw [← Int.lt_zpow_iff_log_lt (by norm_num) hx]
    simpa using h2
  omega

theorem roundFloat32_eval (x : ℚ) (e n : Int) (he : -126 ≤ e) (h1 : (2 : ℚ) ^ e ≤ |x|)
    (h2 : |x| < 2 ^ (e + 1)) (hn : |x / 2 ^ (e - 23) - n| < 1 / 2)
    (hy : |(n : ℚ) * 2 ^ (e - 23)| < 2 ^ 128) :
    roundFloat32 x = some ((n : ℚ) * (2 : ℚ) ^ (e - 23)) := by
  have hx : x ≠ 0 := by
    intro h
    rw [h, abs_zero] at h1
    exact absurd h1 (not_le.mpr (by positivity))
  unfold roundFloat32
  rw [if_neg hx]
  simp only
  rw [log_two_eq |x| e h1 h2, max_eq_left he, roundHalfEven_eq _ n hn, if_neg (not_le.mpr hy)]

theorem roundFloat32_natCast (n : Nat) (h : n < 2 ^ 24) : roundFloat32 n = some (n : ℚ) := by
  by_cases h0 : n = 0
  · subst h0
    simp [roundFloat32]
  have hpos : (0 : ℚ) < n := by exact_mod_cast Nat.pos_of_ne_zero h0
  have hlog : Int.log 2 (n : ℚ) = Nat.log 2 n := Int.log_natCast 2 n
  have hlt : Nat.log 2 n < 24 := by
    apply Nat.log_lt_of_lt_pow h0
    exact h
  obtain ⟨k, hk⟩ : ∃ k : Nat, Nat.log 2 n + k = 23 := ⟨23 - Nat.log 2 n, by omega⟩
  have he1 : (2 : ℚ) ^ ((Nat.log 2 n : ℤ)) ≤ |(n : ℚ)| := by
    rw [abs_of_pos hpos, zpow_natCast]
    exact_mod_cast Nat.pow_log_le_self 2 h0
  have he2 : |(n : ℚ)| < 2 ^ ((Nat.log 2 n : ℤ) + 1) := by
    rw [abs_of_pos hpos]
    have : n < 2 ^ (Nat.log 2 n + 1) := Nat.lt_pow_succ_log_self (by norm_num) n
    have e : ((Nat.log 2 n : ℤ) + 1) = ((Nat.log 2 n + 1 : ℕ) : ℤ) := by push_cast; ring
    rw [e, zpow_natCast]
    exact_mod_cast this
  have hq : (2 : ℚ) ^ ((Nat.log 2 n : ℤ) - 23) = ((2 : ℚ) ^ k)⁻¹ := by
    have e : ((Nat.log 2 n : ℤ) - 23) = -(k : ℤ) := by omega
    rw [e, zpow_neg, zpow_natCast]
  have hk0 : (0 : ℚ) < 2 ^ k := by positivity
  have h := roundFloat32_eval (n : ℚ) (Nat.log 2 n) ((n * 2 ^ k : ℕ) : ℤ) (by omega) he1 he2
    (by
      rw [hq]
      push_cast
      rw [div_inv_eq_mul, sub_self, abs_zero]
      norm_num)
    (by
      rw [hq]
      push_cast
      rw [mul_assoc, mul_inv_cancel₀ (ne_of_gt hk0), mul_one, abs_of_pos hpos]
      calc (n : ℚ) < 2 ^ 24 := by exact_mod_cast h
        _ ≤ 2 ^ 128 := by norm_num)
  rw [h, hq]
  push_cast
  rw [mul_assoc, mul_inv_cancel₀ (ne_of_gt hk0), mul_one]

theorem roundFloat32_normal (x : ℚ) (h1 : (2 : ℚ) ^ (-126 : ℤ) ≤ |x|) (h2 : |x| ≤ 2 ^ 127) :
    ∃ y, roundFloat32 x = some y ∧ |y - x| ≤ |x| / 2 ^ 24 := by
  have hx : x ≠ 0 := by
    intro h
    rw [h, abs_zero] at h1
    exact absurd h1 (not_le.mpr (by positivity))
  have hpos : 0 < |x| := abs_pos.mpr hx
  have hle : (-126 : ℤ) ≤ Int.log 2 |x| := by
    rw [← Int.zpow_le_iff_le_log (by norm_num) hpos]
    simpa using h1
  have hlt : Int.log 2 |x| < 128 := by
    rw [← Int.lt_zpow_iff_log_lt (by norm_num) hpos]
    calc |x| ≤ 2 ^ 127 := h2
      _ < ((2 : ℕ) : ℚ) ^ (128 : ℤ) := by norm_num
  have hlow : (2 : ℚ) ^ (Int.log 2 |x|) ≤ |x| := by
    simpa using Int.zpow_log_le_self (b := 2) (by norm_num) hpos
  set e := Int.log 2 |x| with he
  have hq : (0 : ℚ) < 2 ^ (e - 23) := by positivity
  have hr := roundHalfEven_sub_le (x / 2 ^ (e - 23))
  have herr : |(roundHalfEven (x / 2 ^ (e - 23)) : ℚ) * 2 ^ (e - 23) - x| ≤ 2 ^ (e - 23) / 2 := by
    have : (roundHalfEven (x / 2 ^ (e - 23)) : ℚ) * 2 ^ (e - 23) - x =
        ((roundHalfEven (x / 2 ^ (e - 23)) : ℚ) - x / 2 ^ (e - 23)) * 2 ^ (e - 23) := by
      field_simp
    rw [this, abs_mul, abs_of_pos hq]
    calc _ ≤ 1 / 2 * (2 : ℚ) ^ (e - 23) := mul_le_mul_of_nonneg_right hr (le_of_lt hq)
      _ = 2 ^ (e - 23) / 2 := by ring
  have hq2 : (2 : ℚ) ^ (e - 23) / 2 ≤ |x| / 2 ^ 24 := by
    have : (2 : ℚ) ^ (e - 23) = 2 ^ e / 2 ^ 23 := by
      rw [zpow_sub₀ (by norm_num)]
      norm_num
    rw [this]
    have : (2 : ℚ) ^ e / 2 ^ 23 / 2 = 2 ^ e / 2 ^ 24 := by ring
    rw [this]
    exact div_le_div_of_nonneg_right hlow (by positivity)
  refine ⟨(roundHalfEven (x / 2 ^ (e - 23)) : ℚ) * 2 ^ (e - 23), ?_, le_trans herr hq2⟩
  unfold roundFloat32
  rw [if_neg hx]
  simp only
  rw [← he, max_eq_left hle, if_neg]
  rw [not_le]
  have hb : |(roundHalfEven (x / 2 ^ (e - 23)) : ℚ) * 2 ^ (e - 23)| ≤ |x| + |x| / 2 ^ 24 := by
    have := abs_sub_abs_le_abs_sub ((roundHalfEven (x / 2 ^ (e - 23)) : ℚ) * 2 ^ (e - 23)) x
    linarith [le_trans herr hq2]
  calc _ ≤ |x| + |x| / 2 ^ 24 := hb
    _ ≤ 2 ^ 127 + 2 ^ 127 / 2 ^ 24 := by
      have : |x| / 2 ^ 24 ≤ 2 ^ 127 / 2 ^ 24 := div_le_div_of_nonneg_right h2 (by positivity)
      linarith
    _ < 2 ^ 128 := by norm_num

theorem roundFloat32_quotient (r a : Nat) (hr : r ≤ 0xffff) (ha0 : 0 < a) (ha : a ≤ 0xffff) :
    ∃ y, roundFloat32 ((r : ℚ) / a) = some y ∧
      |y - (r : ℚ) / a| ≤ (r : ℚ) / a / 2 ^ 24 := by
  have hapos : (0 : ℚ) < a := by exact_mod_cast ha0
  have hale : (a : ℚ) ≤ 65535 := by exact_mod_cast ha
  have hrle : (r : ℚ) ≤ 65535 := by exact_mod_cast hr
  by_cases h0 : r = 0
  · subst h0
    exact ⟨0, by simp [roundFloat32], by simp⟩
  have hrpos : (1 : ℚ) ≤ r := by exact_mod_cast Nat.pos_of_ne_zero h0
  have hxpos : (0 : ℚ) < (r : ℚ) / a := div_pos (by linarith) hapos
  have hlow : (1 : ℚ) / 65535 ≤ (r : ℚ) / a := by
    rw [div_le_div_iff₀ (by norm_num) hapos]
    nlinarith
  have hhigh : (r : ℚ) / a ≤ 65535 := by
    rw [div_le_iff₀ hapos]
    have : (1 : ℚ) ≤ a := by exact_mod_cast ha0
    nlinarith
  obtain ⟨y, hy, he⟩ := roundFloat32_normal ((r : ℚ) / a)
    (by
      rw [abs_of_pos hxpos]
      calc (2 : ℚ) ^ (-126 : ℤ) ≤ 1 / 65535 := by norm_num
        _ ≤ (r : ℚ) / a := hlow)
    (by
      rw [abs_of_pos hxpos]
      calc (r : ℚ) / a ≤ 65535 := hhigh
        _ ≤ 2 ^ 127 := by norm_num)
  rw [abs_of_pos hxpos] at he
  exact ⟨y, hy, he⟩

/-- The trace of `glDrawLine` for a colour of 16-bit channels with `a ≠ 0`, given the
four rounded quotients. -/
theorem glDrawLine_rounded (p : painter) (width feather : ℚ) (r g b a : Nat) (s : GLState)
    (c0 c1 c2 c3 : ℚ) (hr : r ≤ 0xffff) (hg : g ≤ 0xffff) (hb : b ≤ 0xffff)
    (ha : a ≤ 0xffff) (ha0 : a ≠ 0)
    (h0 : roundFloat32 ((r : ℚ) / a) = some c0) (h1 : roundFloat32 ((g : ℚ) / a) = some c1)
    (h2 : roundFloat32 ((b : ℚ) / a) = some c2)
    (h3 : roundFloat32 ((a : ℚ) / 65535) = some c3) :
    ∃ s1, p.glDrawLine width ⟨(r, g, b, a)⟩ feather s = some s1 ∧
      s1.calls = s.calls ++
        ([.UseProgram p.lineProgram, .BlendFunc gl.SRC_ALPHA gl.ONE_MINUS_SRC_ALPHA]
          ++ logErrorCalls s.debug ++
          [.GetUniformLocation p.lineProgram "color\x00",
           .Uniform4fv (s.uniformLocation p.lineProgram "color\x00") 1 [c0, c1, c2, c3],
           .GetUniformLocation p.lineProgram "lineWidth\x00",
           .Uniform1f (s.uniformLocation p.lineProgram "lineWidth\x00") width,
           .GetUniformLocation p.lineProgram "feather\x00",
           .Uniform1f (s.uniformLocation p.lineProgram "feather\x00") feather,
           .DrawArrays gl.TRIANGLES 0 6]
          ++ logErrorCalls s.debug) := by
  have hq : (a : ℚ) ≠ 0 := by exact_mod_cast ha0
  have er := roundFloat32_natCast r (by omega)
  have eg := roundFloat32_natCast g (by omega)
  have eb := roundFloat32_natCast b (by omega)
  have ea := roundFloat32_natCast a (by omega)
  simp [painter.glDrawLine, toFloat32, divFloat32, er, eg, eb, ea, ha0, hq, h0, h1, h2, h3,
    gl.UseProgram, gl.BlendFunc, gl.GetUniformLocation, gl.Uniform4fv, gl.Uniform1f,
    gl.DrawArrays, logError_calls, logError_debug, logError_uniformLocation, gl.emit]

/-- The trace of `glDrawLine` for a colour whose alpha channel is zero. -/
theorem glDrawLine_transparent (p : painter) (width feather : ℚ) (r g b : Nat)
    (s : GLState) :
    ∃ s1, p.glDrawLine width ⟨(r, g, b, 0)⟩ feather s = some s1 ∧
      s1.calls = s.calls ++
        ([.UseProgram p.lineProgram, .BlendFunc gl.SRC_ALPHA gl.ONE_MINUS_SRC_ALPHA]
          ++ logErrorCalls s.debug ++
          [.GetUniformLocation p.lineProgram "color\x00",
           .Uniform4f (s.uniformLocation p.lineProgram "color\x00") 0 0 0 0,
           .GetUniformLocation p.lineProgram "lineWidth\x00",
           .Uniform1f (s.uniformLocation p.lineProgram "lineWidth\x00") width,
           .GetUniformLocation p.lineProgram "feather\x00",
           .Uniform1f (s.uniformLocation p.lineProgram "feather\x00") feather,
           .DrawArrays gl.TRIANGLES 0 6]
          ++ logErrorCalls s.debug) := by
  simp [painter.glDrawLine, gl.UseProgram, gl.BlendFunc, gl.GetUniformLocation, gl.Uniform4f,
    gl.Uniform1f, gl.DrawArrays, logError_calls, logError_debug, logError_uniformLocation,
    gl.emit]

/-- C1, as stated, fails: for the colour with RGBA `(32768, 0, 0, 32768)` the `color`
uniform `glDrawLine` sets has the alpha `65537 / 131072`, the `float32` nearest to
`32768 / 65535`, and not `32768 / 65535` itself. -/
theorem glDrawLine_alpha_is_rounded :
    (∃ s1, painter.glDrawLine ⟨{}, 3, 6⟩ 2 ⟨(32768, 0, 0, 32768)⟩ 1 GLState.start = some s1 ∧
      s1.calls =
        [.UseProgram 6, .BlendFunc gl.SRC_ALPHA gl.ONE_MINUS_SRC_ALPHA,
         .GetUniformLocation 6 "color\x00", .Uniform4fv 0 1 [1, 0, 0, 65537 / 131072],
         .GetUniformLocation 6 "lineWidth\x00", .Uniform1f 0 2,
         .GetUniformLocation 6 "feather\x00", .Uniform1f 0 1,
         .DrawArrays gl.TRIANGLES 0 6]) ∧
    (65537 / 131072 : ℚ) ≠ 32768 / 65535 := by
  have h1 : roundFloat32 (((32768 : ℕ) : ℚ) / ((32768 : ℕ) : ℚ)) = some 1 := by
    simpa using roundFloat32_natCast 1 (by norm_num)
  have h0 : roundFloat32 (((0 : ℕ) : ℚ) / ((32768 : ℕ) : ℚ)) = some 0 := by
    simp [roundFloat32]
  have h3 : roundFloat32 (((32768 : ℕ) : ℚ) / 65535) = some (65537 / 131072) := by
    have h := roundFloat32_eval (32768 / 65535) (-1) 8388736 (by norm_num)
      (by rw [abs_of_pos (by norm_num)]; norm_num)
      (by rw [abs_of_pos (by norm_num)]; norm_num)
      (by rw [abs_lt]; constructor <;> norm_num)
      (by rw [abs_of_pos (by norm_num)]; norm_num)
    simp only [Nat.cast_ofNat]
    rw [h]
    norm_num
  obtain ⟨s1, e1, e2⟩ := glDrawLine_rounded ⟨{}, 3, 6⟩ 2 1 32768 0 0 32768 GLState.start
    1 0 0 (65537 / 131072) (by norm_num) (by norm_num) (by norm_num) (by norm_num)
    (by norm_num) h1 h0 h0 h3
  exact ⟨⟨s1, e1, by simpa [logErrorCalls, GLState.start] using e2⟩, by norm_num⟩

/-- C1, amended: for a colour of 16-bit channels `(r, g, b, a)`, `glDrawLine` always
completes (no quotient by a zero alpha is taken); it sets the `color` uniform by
`Uniform4f` to exactly `(0, 0, 0, 0)` when `a = 0`, and when `a > 0` by `Uniform4fv`
to the four `float32` quotients, each the `float32` nearest to `r/a`, `g/a`, `b/a`
and `a/65535` and so within the relative error `2^-24` of it. -/
theorem glDrawLine_color_uniform (p : painter) (width feather : ℚ) (r g b a : Nat)
    (s : GLState) (hr : r ≤ 0xffff) (hg : g ≤ 0xffff) (hb : b ≤ 0xffff) (ha : a ≤ 0xffff) :
    ∃ s1, p.glDrawLine width ⟨(r, g, b, a)⟩ feather s = some s1 ∧
      (a = 0 → s1.calls = s.calls ++
        ([.UseProgram p.lineProgram, .BlendFunc gl.SRC_ALPHA gl.ONE_MINUS_SRC_ALPHA]
          ++ logErrorCalls s.debug ++
          [.GetUniformLocation p.lineProgram "color\x00",
           .Uniform4f (s.uniformLocation p.lineProgram "color\x00") 0 0 0 0,
           .GetUniformLocation p.lineProgram "lineWidth\x00",
           .Uniform1f (s.uniformLocation p.lineProgram "lineWidth\x00") width,
           .GetUniformLocation p.lineProgram "feather\x00",
           .Uniform1f (s.uniformLocation p.lineProgram "feather\x00") feather,
           .DrawArrays gl.TRIANGLES 0 6]
          ++ logErrorCalls s.debug)) ∧
      (0 < a → ∃ c0 c1 c2 c3 : ℚ,
        roundFloat32 ((r : ℚ) / a) = some c0 ∧ roundFloat32 ((g : ℚ) / a) = some c1 ∧
        roundFloat32 ((b : ℚ) / a) = some c2 ∧ roundFloat32 ((a : ℚ) / 65535) = some c3 ∧
        |c0 - (r : ℚ) / a| ≤ (r : ℚ) / a / 2 ^ 24 ∧
        |c1 - (g : ℚ) / a| ≤ (g : ℚ) / a / 2 ^ 24 ∧
        |c2 - (b : ℚ) / a| ≤ (b : ℚ) / a / 2 ^ 24 ∧
        |c3 - (a : ℚ) / 65535| ≤ (a : ℚ) / 65535 / 2 ^ 24 ∧
        s1.calls = s.calls ++
        ([.UseProgram p.lineProgram, .BlendFunc gl.SRC_ALPHA gl.ONE_MINUS_SRC_ALPHA]
          ++ logErrorCalls s.debug ++
          [.GetUniformLocation p.lineProgram "color\x00",
           .Uniform4fv (s.uniformLocation p.lineProgram "color\x00") 1 [c0, c1, c2, c3],
           .GetUniformLocation p.lineProgram "lineWidth\x00",
           .Uniform1f (s.uniformLocation p.lineProgram "lineWidth\x00") width,
           .GetUniformLocation p.lineProgram "feather\x00",
           .Uniform1f (s.uniformLocation p.lineProgram "feather\x00") feather,
           .DrawArrays gl.TRIANGLES 0 6]
          ++ logErrorCalls s.debug)) := by
  by_cases ha0 : a = 0
  · subst ha0
    obtain ⟨s1, hs, hc⟩ := glDrawLine_transparent p width feather r g b s
    exact ⟨s1, hs, fun _ => hc, fun h => absurd h (lt_irrefl 0)⟩
  · have hpos : 0 < a := Nat.pos_of_ne_zero ha0
    obtain ⟨c0, h0, e0⟩ := roundFloat32_quotient r a hr hpos ha
    obtain ⟨c1, h1, e1⟩ := roundFloat32_quotient g a hg hpos ha
    obtain ⟨c2, h2, e2⟩ := roundFloat32_quotient b a hb hpos ha
    obtain ⟨c3, h3, e3⟩ := roundFloat32_quotient a 65535 ha (by norm_num) (by norm_num)
    simp only [Nat.cast_ofNat] at h3 e3
    obtain ⟨s1, hs, hc⟩ := glDrawLine_rounded p width feather r g b a s c0 c1 c2 c3 hr hg hb
      ha ha0 h0 h1 h2 h3
    exact ⟨s1, hs, fun h => absurd h ha0,
      fun _ => ⟨c0, c1, c2, c3, h0, h1, h2, h3, e0, e1, e2, e3, hc⟩⟩

/-- C2: `glDrawTexture` takes one blend path per call. With `alpha = 1.0` it issues
`BlendFunc(ONE, ONE_MINUS_SRC_ALPHA)` and no `BlendColor`; with `0 ≤ alpha < 1` it
issues `BlendColor(0, 0, 0, alpha)` and then
`BlendFunc(CONSTANT_ALPHA, ONE_MINUS_CONSTANT_ALPHA)`. In both cases the texture given
is bound next and one 4-vertex `TRIANGLE_STRIP` is drawn, and whatever `alpha` is the
call issues exactly one `BlendFunc`. -/
theorem glDrawTexture_blend_path (p : painter) (texture : Nat) (alpha : ℚ) (s : GLState) :
    (alpha = 1 → (p.glDrawTexture texture alpha s).calls = s.calls ++
      ([.UseProgram p.program, .BlendFunc gl.ONE gl.ONE_MINUS_SRC_ALPHA]
        ++ logErrorCalls s.debug ++
        [.ActiveTexture gl.TEXTURE0, .BindTexture gl.TEXTURE_2D texture]
        ++ logErrorCalls s.debug ++ [.DrawArrays gl.TRIANGLE_STRIP 0 4]
        ++ logErrorCalls s.debug)) ∧
    (0 ≤ alpha ∧ alpha < 1 → (p.glDrawTexture texture alpha s).calls = s.calls ++
      ([.UseProgram p.program, .BlendColor 0 0 0 alpha,
        .BlendFunc gl.CONSTANT_ALPHA gl.ONE_MINUS_CONSTANT_ALPHA]
        ++ logErrorCalls s.debug ++
        [.ActiveTexture gl.TEXTURE0, .BindTexture gl.TEXTURE_2D texture]
        ++ logErrorCalls s.debug ++ [.DrawArrays gl.TRIANGLE_STRIP 0 4]
        ++ logErrorCalls s.debug)) ∧
    ((p.glDrawTexture texture alpha s).callsSince s.calls.length).countP
      GlCall.isBlendFunc = 1 := by
  refine ⟨?_, ?_, ?_⟩
  · intro h
    subst h
    simp [painter.glDrawTexture, gl.UseProgram, gl.BlendFunc, gl.ActiveTexture,
      gl.BindTexture, gl.DrawArrays, logError_calls, logError_debug, emit_calls,
      emit_debug, float_one]
  · rintro ⟨_, h1⟩
    have hne : alpha ≠ 1 := ne_of_lt h1
    simp [painter.glDrawTexture, gl.UseProgram, gl.BlendFunc, gl.BlendColor,
      gl.ActiveTexture, gl.BindTexture, gl.DrawArrays, logError_calls, logError_debug,
      emit_calls, emit_debug, float_one, hne]
  · by_cases h1 : alpha = 1
    · subst h1
      simp [painter.glDrawTexture, gl.UseProgram, gl.BlendFunc, gl.ActiveTexture,
        gl.BindTexture, gl.DrawArrays, logError_calls, logError_debug, emit_calls,
        emit_debug, float_one, GLState.callsSince]
      cases s.debug <;> simp [logErrorCalls, GlCall.isBlendFunc, List.countP_cons]
    · simp [painter.glDrawTexture, gl.UseProgram, gl.BlendFunc, gl.BlendColor,
        gl.ActiveTexture, gl.BindTexture, gl.DrawArrays, logError_calls, logError_debug,
        emit_calls, emit_debug, float_one, GLState.callsSince, h1]
      cases s.debug <;> simp [logErrorCalls, GlCall.isBlendFunc, List.countP_cons]

/-- The two blend paths of `glDrawTexture` at `alpha = 1` and `alpha = 1/2`, on an
empty trace. -/
theorem glDrawTexture_blend_path_witness :
    (painter.glDrawTexture ⟨{}, 3, 6⟩ 9 1
        GLState.start).calls =
      [.UseProgram 3, .BlendFunc gl.ONE gl.ONE_MINUS_SRC_ALPHA, .ActiveTexture gl.TEXTURE0,
        .BindTexture gl.TEXTURE_2D 9, .DrawArrays gl.TRIANGLE_STRIP 0 4] ∧
    (painter.glDrawTexture ⟨{}, 3, 6⟩ 9 (1 / 2)
        GLState.start).calls =
      [.UseProgram 3, .BlendColor 0 0 0 (1 / 2),
        .BlendFunc gl.CONSTANT_ALPHA gl.ONE_MINUS_CONSTANT_ALPHA, .ActiveTexture gl.TEXTURE0,
        .BindTexture gl.TEXTURE_2D 9, .DrawArrays gl.TRIANGLE_STRIP 0 4] :=
  ⟨by simpa [logErrorCalls, GLState.start] using
     (glDrawTexture_blend_path ⟨{}, 3, 6⟩ 9 1 GLState.start).1 rfl,
   by simpa [logErrorCalls, GLState.start] using
     (glDrawTexture_blend_path ⟨{}, 3, 6⟩ 9 (1 / 2) GLState.start).2.1
       ⟨by norm_num, by norm_num⟩⟩

theorem freeTexture_absent (p : painter) (obj : Nat) (w : TextureCache × GLState)
    (h : w.1 obj = none) : p.freeTexture obj w = w := by
  simp [painter.freeTexture, cache.GetTexture, h]

theorem freeTexture_present (p : painter) (obj t : Nat) (w : TextureCache × GLState)
    (h : w.1 obj = some t) :
    p.freeTexture obj w =
      (cache.DeleteTexture obj w.1, logError (gl.DeleteTextures 1 [t] w.2)) := by
  simp [painter.freeTexture, cache.GetTexture, h]

theorem freeTexture_entry_gone (p : painter) (obj : Nat) (w : TextureCache × GLState) :
    (p.freeTexture obj w).1 obj = none := by
  cases h : w.1 obj with
  | none => rw [freeTexture_absent p obj w h]; exact h
  | some t => rw [freeTexture_present p obj t w h]; simp [cache.DeleteTexture]

theorem freeTexture_twice (p : painter) (obj : Nat) (w : TextureCache × GLState) :
    p.freeTexture obj (p.freeTexture obj w) = p.freeTexture obj w :=
  freeTexture_absent p obj _ (freeTexture_entry_gone p obj w)

theorem freeTexture_iterate (p : painter) (obj : Nat) (w : TextureCache × GLState) (n : Nat) :
    (p.freeTexture obj)^[n + 1] w = p.freeTexture obj w := by
  induction n with
  | zero => rfl
  | succ k ih =>
    rw [Function.iterate_succ_apply', ih, freeTexture_twice]

/-- C3: calling `freeTexture` `n ≥ 1` times in succession leaves the same cache and the
same trace of GL calls as calling it once. When the object has a cached texture `t`,
one call issues exactly one `DeleteTextures(1, [t])` and removes the entry; when it has
none (never cached or already freed), a call issues nothing and changes nothing. -/
theorem freeTexture_idempotent (p : painter) (obj : Nat) (w : TextureCache × GLState)
    (n : Nat) (hn : 1 ≤ n) :
    (p.freeTexture obj)^[n] w = p.freeTexture obj w ∧
    (∀ t, w.1 obj = some t →
      ((p.freeTexture obj)^[n] w).1 = cache.DeleteTexture obj w.1 ∧
      ((p.freeTexture obj)^[n] w).1 obj = none ∧
      ((p.freeTexture obj)^[n] w).2.calls =
        w.2.calls ++ ([.DeleteTextures 1 [t]] ++ logErrorCalls w.2.debug)) ∧
    (w.1 obj = none → (p.freeTexture obj)^[n] w = w) := by
  obtain ⟨k, rfl⟩ : ∃ k, n = k + 1 := ⟨n - 1, by omega⟩
  rw [freeTexture_iterate]
  refine ⟨rfl, ?_, freeTexture_absent p obj w⟩
  intro t ht
  rw [freeTexture_present p obj t w ht]
  refine ⟨rfl, by simp [cache.DeleteTexture], ?_⟩
  simp [logError_calls, gl.DeleteTextures, gl.emit]

/-- Three calls of `freeTexture` on the one cached object: one `DeleteTextures`. -/
theorem freeTexture_idempotent_witness :
    ((painter.freeTexture ⟨{}, 3, 6⟩ 7)^[3] (TextureCache.single 7 5, GLState.start)).2.calls =
      [.DeleteTextures 1 [5]] ∧
    ((painter.freeTexture ⟨{}, 3, 6⟩ 7)^[3] (TextureCache.single 7 5, GLState.start)).1 7 =
      none :=
  ⟨by simpa [logErrorCalls, GLState.start] using
     ((freeTexture_idempotent ⟨{}, 3, 6⟩ 7 (TextureCache.single 7 5, GLState.start) 3
       (by decide)).2.1 5 (by simp [TextureCache.single])).2.2,
   ((freeTexture_idempotent ⟨{}, 3, 6⟩ 7 (TextureCache.single 7 5, GLState.start) 3
       (by decide)).2.1 5 (by simp [TextureCache.single])).2.1⟩

/-- The trace of `glClearBuffer` for a background of 16-bit channels, given the four
rounded quotients by `65025`. -/
theorem glClearBuffer_rounded (p : painter) (r g b a : Nat) (s : GLState) (c0 c1 c2 c3 : ℚ)
    (hr : r ≤ 0xffff) (hg : g ≤ 0xffff) (hb : b ≤ 0xffff) (ha : a ≤ 0xffff)
    (h0 : roundFloat32 ((r : ℚ) / 65025) = some c0)
    (h1 : roundFloat32 ((g : ℚ) / 65025) = some c1)
    (h2 : roundFloat32 ((b : ℚ) / 65025) = some c2)
    (h3 : roundFloat32 ((a : ℚ) / 65025) = some c3) :
    ∃ s1, p.glClearBuffer ⟨(r, g, b, a)⟩ s = some s1 ∧
      s1.calls = s.calls ++
        ([.UseProgram p.program] ++ logErrorCalls s.debug ++
          [.ClearColor c0 c1 c2 c3,
           .Clear (gl.COLOR_BUFFER_BIT ||| gl.DEPTH_BUFFER_BIT)] ++ logErrorCalls s.debug) := by
  have em : roundFloat32 (65025 : ℚ) = some 65025 := by
    simpa using roundFloat32_natCast 65025 (by norm_num)
  have er := roundFloat32_natCast r (by omega)
  have eg := roundFloat32_natCast g (by omega)
  have eb := roundFloat32_natCast b (by omega)
  have ea := roundFloat32_natCast a (by omega)
  simp [painter.glClearBuffer, toFloat32, divFloat32, em, er, eg, eb, ea, h0, h1, h2, h3,
    gl.UseProgram, gl.ClearColor, gl.Clear, logError_calls, logError_debug, gl.emit]

/-- C4, at the failing input: with the background `(0xffff, 0xffff, 0xffff, 0xffff)`
(opaque white) `glClearBuffer` divides by `255 * 255 = 65025`, not by `65535`, and
sets a clear colour whose four components are `8454401 / 8388608`, the `float32`
nearest to `65535 / 65025`, which is above 1. -/
theorem glClearBuffer_white_above_one (p : painter) (s : GLState) :
    ∃ s1, p.glClearBuffer ⟨(0xffff, 0xffff, 0xffff, 0xffff)⟩ s = some s1 ∧
      s1.calls = s.calls ++
        ([.UseProgram p.program] ++ logErrorCalls s.debug ++
          [.ClearColor (8454401 / 8388608) (8454401 / 8388608) (8454401 / 8388608)
            (8454401 / 8388608),
           .Clear (gl.COLOR_BUFFER_BIT ||| gl.DEPTH_BUFFER_BIT)] ++ logErrorCalls s.debug) ∧
      (1 : ℚ) < 8454401 / 8388608 := by
  have h : roundFloat32 (((0xffff : ℕ) : ℚ) / 65025) = some (8454401 / 8388608) := by
    have h := roundFloat32_eval (65535 / 65025) 0 8454401 (by norm_num)
      (by rw [abs_of_pos (by norm_num)]; norm_num)
      (by rw [abs_of_pos (by norm_num)]; norm_num)
      (by rw [abs_lt]; constructor <;> norm_num)
      (by rw [abs_of_pos (by norm_num)]; norm_num)
    simp only [Nat.cast_ofNat]
    rw [h]
    norm_num
  obtain ⟨s1, e1, e2⟩ := glClearBuffer_rounded p 0xffff 0xffff 0xffff 0xffff s _ _ _ _
    (by norm_num) (by norm_num) (by norm_num) (by norm_num) h h h h
  exact ⟨s1, e1, e2, by norm_num⟩

/-- Every negative filter mode makes `newTexture` panic at the lookup. -/
theorem newTexture_negative_fails (p : painter) (f : Int) (s : GLState) (h : f < 0) :
    p.newTexture f s = .error "runtime error: index out of range" := by
  obtain ⟨n, rfl⟩ := Int.eq_negSucc_of_lt_zero h
  have hf : ¬ (Int.negSucc n ≥ (textureFilterToGL.length : Int)) := by
    simp [textureFilterToGL]
    omega
  simp [painter.newTexture, if_neg hf, goIndex]

/-- C5, at the failing input: for the filter mode `-1` the guard of `newTexture` does
not fire (`-1 ≥ 2` is false) and the lookup `textureFilterToGL[-1]` is out of range. -/
theorem newTexture_negative_filter_fails (p : painter) (s : GLState) :
    p.newTexture (-1) s = .error "runtime error: index out of range" := by
  simp [painter.newTexture, textureFilterToGL, goIndex]
  rfl

/-- The filter `newTexture` sets for a filter mode that is not negative: `NEAREST`
for 1, `LINEAR` for 0 and for every value from 2 on. -/
theorem newTexture_filter_lookup (f : Int) (h : 0 ≤ f) :
    goIndex textureFilterToGL
        (if f ≥ (textureFilterToGL.length : Int) then canvas.ImageScaleSmooth else f) =
      .ok (if f = 1 then gl.NEAREST else gl.LINEAR) := by
  obtain ⟨n, rfl⟩ := Int.eq_ofNat_of_zero_le h
  match n with
  | 0 => rfl
  | 1 => rfl
  | k + 2 =>
    have h2 : ((k + 2 : Nat) : Int) ≥ ((textureFilterToGL.length : Nat) : Int) := by
      simp [textureFilterToGL]
    have h3 : ((k + 2 : Nat) : Int) ≠ 1 := by omega
    rw [if_pos h2, if_neg h3]
    rfl

/-- For a filter mode that is not negative `newTexture` returns a fresh texture,
with both filters `NEAREST` for mode 1 and `LINEAR` for every other mode. -/
theorem newTexture_ok (p : painter) (f : Int) (s : GLState) (h : 0 ≤ f) :
    ∃ s1, p.newTexture f s = .ok (s.genName s.created, s1) ∧ s1.debug = s.debug ∧
      s1.calls = s.calls ++
        ([.GenTextures 1] ++ logErrorCalls s.debug ++
          [.ActiveTexture gl.TEXTURE0, .BindTexture gl.TEXTURE_2D (s.genName s.created)]
          ++ logErrorCalls s.debug ++
          [.TexParameteri gl.TEXTURE_2D gl.TEXTURE_MIN_FILTER
              (if f = 1 then gl.NEAREST else gl.LINEAR),
           .TexParameteri gl.TEXTURE_2D gl.TEXTURE_MAG_FILTER
              (if f = 1 then gl.NEAREST else gl.LINEAR),
           .TexParameteri gl.TEXTURE_2D gl.TEXTURE_WRAP_S gl.CLAMP_TO_EDGE,
           .TexParameteri gl.TEXTURE_2D gl.TEXTURE_WRAP_T gl.CLAMP_TO_EDGE]
          ++ logErrorCalls s.debug) := by
  have hl := newTexture_filter_lookup f h
  by_cases hf : f ≥ (textureFilterToGL.length : Int)
  · rw [if_pos hf] at hl
    simp [painter.newTexture, if_pos hf, hl, esContext.CreateTexture, gl.GenTextures,
      gl.fresh, gl.ActiveTexture, gl.BindTexture, gl.TexParameteri, fyne.LogError,
      logError_calls, logError_debug, gl.emit]
  · rw [if_neg hf] at hl
    simp [painter.newTexture, if_neg hf, hl, esContext.CreateTexture, gl.GenTextures,
      gl.fresh, gl.ActiveTexture, gl.BindTexture, gl.TexParameteri,
      logError_calls, logError_debug, gl.emit]

/-- The high byte of a 16-bit channel, as `imgToTexture` computes it. -/
theorem toUint8_high_byte (c : Nat) (h : c ≤ 0xffff) : toUint8 (c >>> 8) = c / 256 := by
  simp only [toUint8, Nat.shiftRight_eq_div_pow]
  omega

/-- For a filter mode that is not negative, `imgToTexture` uploads a uniform image
as one texture of 1x1 pixels holding the high byte of each 16-bit channel. -/
theorem imgToTexture_uniform_ok (p : painter) (r g b a : Nat) (f : Int) (s : GLState)
    (hf : 0 ≤ f) (hr : r ≤ 0xffff) (hg : g ≤ 0xffff) (hb : b ≤ 0xffff) (ha : a ≤ 0xffff) :
    ∃ s1, p.imgToTexture (.Uniform ⟨(r, g, b, a)⟩) f s = .ok (s.genName s.created, s1) ∧
      s1.calls = s.calls ++
        ([.GenTextures 1] ++ logErrorCalls s.debug ++
          [.ActiveTexture gl.TEXTURE0, .BindTexture gl.TEXTURE_2D (s.genName s.created)]
          ++ logErrorCalls s.debug ++
          [.TexParameteri gl.TEXTURE_2D gl.TEXTURE_MIN_FILTER
              (if f = 1 then gl.NEAREST else gl.LINEAR),
           .TexParameteri gl.TEXTURE_2D gl.TEXTURE_MAG_FILTER
              (if f = 1 then gl.NEAREST else gl.LINEAR),
           .TexParameteri gl.TEXTURE_2D gl.TEXTURE_WRAP_S gl.CLAMP_TO_EDGE,
           .TexParameteri gl.TEXTURE_2D gl.TEXTURE_WRAP_T gl.CLAMP_TO_EDGE]
          ++ logErrorCalls s.debug ++
          [.TexImage2D gl.TEXTURE_2D 0 gl.RGBA 1 1 0 gl.RGBA gl.UNSIGNED_BYTE
            [r / 256, g / 256, b / 256, a / 256]]
          ++ logErrorCalls s.debug) := by
  obtain ⟨s1, h1, hd, hc⟩ := newTexture_ok p f s hf
  rw [painter.imgToTexture]
  simp [h1, gl.TexImage2D, logError_calls, logError_debug, gl.emit, hd, hc,
    toUint8_high_byte, hr, hg, hb, ha]

/-- C7, at the failing input: for a uniform image and the filter mode `-1`
`imgToTexture` panics inside `newTexture` and uploads nothing. -/
theorem imgToTexture_uniform_negative_filter_fails (p : painter) (c : Color) (s : GLState) :
    p.imgToTexture (.Uniform c) (-1) s = .error "runtime error: index out of range" := by
  rw [painter.imgToTexture]
  simp [newTexture_negative_fails p (-1) s (by decide)]

theorem NewRGBA_zero_area (w h : Int) (hz : w * h = 0) :
    (image.NewRGBA (image.Rect 0 0 w h)).Pix = [] := by
  have : 4 * (image.Rect 0 0 w h).Dx * (image.Rect 0 0 w h).Dy = 0 := by
    rcases mul_eq_zero.mp hz with h0 | h0
    · subst h0
      simp [image.Rect, Rectangle.Dx]
    · subst h0
      simp [image.Rect, Rectangle.Dy]
  simp [image.NewRGBA, this]

theorem Draw_length (dst : RGBAImage) (b : Rectangle) (colourAt : Int → Int → Color) :
    (draw.Draw dst b colourAt).Pix.length = dst.Pix.length := by
  simp [draw.Draw]

/-- C8: `imgToTexture` returns the handle 0 and leaves the driver as it was (no call
is issued, no texture created or uploaded) for an `*image.RGBA` whose pixel buffer is
empty and for any other non-uniform image whose bounds have zero area; such an image
is converted once, to an `*image.RGBA`, whose branch does not recurse. -/
theorem imgToTexture_empty (p : painter) (f : Int) (s : GLState) :
    (∀ i : RGBAImage, i.Pix.length = 0 → p.imgToTexture (.RGBA i) f s = .ok (0, s)) ∧
    (∀ (bounds : Rectangle) (colourAt : Int → Int → Color), bounds.Dx * bounds.Dy = 0 →
      p.imgToTexture (.Other bounds colourAt) f s =
        p.imgToTexture
          (.RGBA (draw.Draw (image.NewRGBA (image.Rect 0 0 bounds.Dx bounds.Dy)) bounds
            colourAt)) f s ∧
      (Image.RGBA (draw.Draw (image.NewRGBA (image.Rect 0 0 bounds.Dx bounds.Dy)) bounds
            colourAt)).conversions = 0 ∧
      p.imgToTexture (.Other bounds colourAt) f s = .ok (0, s)) := by
  have hrgba : ∀ i : RGBAImage, i.Pix.length = 0 →
      p.imgToTexture (.RGBA i) f s = .ok (0, s) := by
    intro i hi
    rw [painter.imgToTexture]
    simp [hi]
  refine ⟨hrgba, ?_⟩
  intro bounds colourAt hz
  have hstep : p.imgToTexture (.Other bounds colourAt) f s =
      p.imgToTexture
        (.RGBA (draw.Draw (image.NewRGBA (image.Rect 0 0 bounds.Dx bounds.Dy)) bounds
          colourAt)) f s := by
    conv_lhs => unfold painter.imgToTexture
  refine ⟨hstep, rfl, ?_⟩
  rw [hstep]
  apply hrgba
  rw [Draw_length, NewRGBA_zero_area _ _ hz]
  rfl

/-- An empty `*image.RGBA` and a 0x5 image of another type, under the filter mode 1. -/
theorem imgToTexture_empty_witness :
    painter.imgToTexture ⟨{}, 3, 6⟩ (.RGBA ⟨[], 0, ⟨⟨0, 0⟩, ⟨0, 0⟩⟩⟩) 1 GLState.start =
      .ok (0, GLState.start) ∧
    painter.imgToTexture ⟨{}, 3, 6⟩ (.Other ⟨⟨2, 1⟩, ⟨2, 6⟩⟩ fun _ _ => ⟨(0, 0, 0, 0)⟩) 1
      GLState.start = .ok (0, GLState.start) :=
  ⟨(imgToTexture_empty ⟨{}, 3, 6⟩ 1 GLState.start).1 _ rfl,
   ((imgToTexture_empty ⟨{}, 3, 6⟩ 1 GLState.start).2 _ _ (by decide)).2.2⟩

theorem glScissorOpen_clip (p : painter) (x y w h : Int) (s : GLState) :
    (p.glScissorOpen x y w h s).scissorTest = true ∧
    (p.glScissorOpen x y w h s).scissorBox = (x, y, w, h) := by
  simp [painter.glScissorOpen, logError_scissorTest, logError_scissorBox, gl.Enable,
    gl.Scissor, gl.emit]

theorem glScissorClose_clip (p : painter) (s : GLState) :
    (p.glScissorClose s).scissorTest = false := by
  simp [painter.glScissorClose, logError_scissorTest, gl.Disable, gl.emit]

/-- C9: after any sequence of `glScissorOpen` / `glScissorClose` calls the clip state
is decided by the last call alone. If it is `glScissorOpen(x, y, w, h)` the scissor
test is enabled and the scissor box is exactly `(x, y, w, h)`; if it is
`glScissorClose` the scissor test is disabled and no rectangle is in force, however
many rectangles were opened before. -/
theorem scissor_last_call_decides (p : painter) (cs : List ScissorCall) (s : GLState) :
    (∀ x y w h : Int,
      (runScissorCalls p (cs ++ [.glScissorOpen x y w h]) s).scissorTest = true ∧
      (runScissorCalls p (cs ++ [.glScissorOpen x y w h]) s).scissorBox = (x, y, w, h) ∧
      (runScissorCalls p (cs ++ [.glScissorOpen x y w h]) s).clip = some (x, y, w, h)) ∧
    ((runScissorCalls p (cs ++ [.glScissorClose]) s).scissorTest = false ∧
      (runScissorCalls p (cs ++ [.glScissorClose]) s).clip = none) := by
  refine ⟨?_, ?_⟩
  · intro x y w h
    have hrun : runScissorCalls p (cs ++ [.glScissorOpen x y w h]) s =
        p.glScissorOpen x y w h (runScissorCalls p cs s) := by
      simp [runScissorCalls, List.foldl_append, ScissorCall.run]
    obtain ⟨h1, h2⟩ := glScissorOpen_clip p x y w h (runScissorCalls p cs s)
    rw [hrun]
    exact ⟨h1, h2, by simp [GLState.clip, h1, h2]⟩
  · have hrun : runScissorCalls p (cs ++ [.glScissorClose]) s =
        p.glScissorClose (runScissorCalls p cs s) := by
      simp [runScissorCalls, List.foldl_append, ScissorCall.run]
    have h1 := glScissorClose_clip p (runScissorCalls p cs s)
    rw [hrun]
    exact ⟨h1, by simp [GLState.clip, h1]⟩

theorem Ptr_nonempty {α : Type} (data : List α) (h : data ≠ []) : gl.Ptr data = .ok () := by
  cases data with
  | nil => exact absurd rfl h
  | cons x xs => rfl

/-- The trace of `glCreateBuffer` on a slice that is not empty. -/
theorem glCreateBuffer_calls (p : painter) (points : List ℚ) (s : GLState)
    (h : points ≠ []) :
    ∃ s1, p.glCreateBuffer points s = .ok (s.genName s.created, s1) ∧
      s1.calls = s.calls ++
        ([.UseProgram p.program, .GenBuffers 1] ++ logErrorCalls s.debug ++
          [.BindBuffer gl.ARRAY_BUFFER (s.genName s.created)] ++ logErrorCalls s.debug ++
          [.BufferData gl.ARRAY_BUFFER (4 * points.length) points gl.STATIC_DRAW]
          ++ logErrorCalls s.debug ++
          [.GetAttribLocation p.program "vert\x00",
           .EnableVertexAttribArray (toUint32 (s.attribLocation p.program "vert\x00")),
           .VertexAttribPointerWithOffset (toUint32 (s.attribLocation p.program "vert\x00"))
              3 gl.FLOAT false 20 0] ++ logErrorCalls s.debug ++
          [.GetAttribLocation p.program "vertTexCoord\x00",
           .EnableVertexAttribArray
              (toUint32 (s.attribLocation p.program "vertTexCoord\x00")),
           .VertexAttribPointerWithOffset
              (toUint32 (s.attribLocation p.program "vertTexCoord\x00"))
              2 gl.FLOAT false 20 12] ++ logErrorCalls s.debug) := by
  simp [painter.glCreateBuffer, Ptr_nonempty points h, gl.UseProgram, gl.GenBuffers, gl.fresh,
    gl.BindBuffer, gl.BufferData, gl.GetAttribLocation, gl.EnableVertexAttribArray,
    gl.VertexAttribPointerWithOffset, logError_calls, logError_debug,
    logError_attribLocation, gl.emit]

/-- The trace of `glCreateLineBuffer` on a slice that is not empty. -/
theorem glCreateLineBuffer_calls (p : painter) (points : List ℚ) (s : GLState)
    (h : points ≠ []) :
    ∃ s1, p.glCreateLineBuffer points s = .ok (s.genName s.created, s1) ∧
      s1.calls = s.calls ++
        ([.UseProgram p.lineProgram, .GenBuffers 1] ++ logErrorCalls s.debug ++
          [.BindBuffer gl.ARRAY_BUFFER (s.genName s.created)] ++ logErrorCalls s.debug ++
          [.BufferData gl.ARRAY_BUFFER (4 * points.length) points gl.STATIC_DRAW]
          ++ logErrorCalls s.debug ++
          [.GetAttribLocation p.lineProgram "vert\x00",
           .EnableVertexAttribArray (toUint32 (s.attribLocation p.lineProgram "vert\x00")),
           .VertexAttribPointerWithOffset
              (toUint32 (s.attribLocation p.lineProgram "vert\x00"))
              2 gl.FLOAT false 16 0] ++ logErrorCalls s.debug ++
          [.GetAttribLocation p.lineProgram "normal\x00",
           .EnableVertexAttribArray (toUint32 (s.attribLocation p.lineProgram "normal\x00")),
           .VertexAttribPointerWithOffset
              (toUint32 (s.attribLocation p.lineProgram "normal\x00"))
              2 gl.FLOAT false 16 8] ++ logErrorCalls s.debug) := by
  simp [painter.glCreateLineBuffer, Ptr_nonempty points h, gl.UseProgram, gl.GenBuffers,
    gl.fresh, gl.BindBuffer, gl.BufferData, gl.GetAttribLocation,
    gl.EnableVertexAttribArray, gl.VertexAttribPointerWithOffset, logError_calls,
    logError_debug, logError_attribLocation, gl.emit]

/-- C10, as stated, fails: on an empty points array `gl.Ptr(points)` panics, in
`glCreateBuffer` and in `glCreateLineBuffer`, before `BufferData` is called: nothing is
uploaded and no attribute is configured. -/
theorem buffer_empty_points_panics :
    painter.glCreateBuffer ⟨{}, 3, 6⟩ [] GLState.start =
      .error "reflect: slice index out of range" ∧
    painter.glCreateLineBuffer ⟨{}, 3, 6⟩ [] GLState.start =
      .error "reflect: slice index out of range" :=
  ⟨rfl, rfl⟩

/-- C10, amended: for every points array that is not empty, `glCreateBuffer` uploads
`4 * len(points)` bytes as a `STATIC_DRAW` array buffer and sets `vert` to 3 floats at
offset 0 and `vertTexCoord` to 2 floats at offset 12, both with stride 20;
`glCreateLineBuffer` does the same upload and sets `vert` to 2 floats at offset 0 and
`normal` to 2 floats at offset 8, both with stride 16. Each layout tiles its stride,
and neither depends on `points`. -/
theorem buffer_layouts (p : painter) (points : List ℚ) (s : GLState) (hne : points ≠ []) :
    (∃ s1, p.glCreateBuffer points s = .ok (s.genName s.created, s1) ∧
      s1.calls = s.calls ++
        ([.UseProgram p.program, .GenBuffers 1] ++ logErrorCalls s.debug ++
          [.BindBuffer gl.ARRAY_BUFFER (s.genName s.created)] ++ logErrorCalls s.debug ++
          [.BufferData gl.ARRAY_BUFFER (4 * points.length) points gl.STATIC_DRAW]
          ++ logErrorCalls s.debug ++
          [.GetAttribLocation p.program "vert\x00",
           .EnableVertexAttribArray (toUint32 (s.attribLocation p.program "vert\x00")),
           .VertexAttribPointerWithOffset (toUint32 (s.attribLocation p.program "vert\x00"))
              3 gl.FLOAT false 20 0] ++ logErrorCalls s.debug ++
          [.GetAttribLocation p.program "vertTexCoord\x00",
           .EnableVertexAttribArray
              (toUint32 (s.attribLocation p.program "vertTexCoord\x00")),
           .VertexAttribPointerWithOffset
              (toUint32 (s.attribLocation p.program "vertTexCoord\x00"))
              2 gl.FLOAT false 20 12] ++ logErrorCalls s.debug) ∧
      attribLayout (s1.callsSince s.calls.length) = [(3, 20, 0), (2, 20, 12)] ∧
      tilesStride 0 20 (attribLayout (s1.callsSince s.calls.length)) = true) ∧
    (∃ s2, p.glCreateLineBuffer points s = .ok (s.genName s.created, s2) ∧
      s2.calls = s.calls ++
        ([.UseProgram p.lineProgram, .GenBuffers 1] ++ logErrorCalls s.debug ++
          [.BindBuffer gl.ARRAY_BUFFER (s.genName s.created)] ++ logErrorCalls s.debug ++
          [.BufferData gl.ARRAY_BUFFER (4 * points.length) points gl.STATIC_DRAW]
          ++ logErrorCalls s.debug ++
          [.GetAttribLocation p.lineProgram "vert\x00",
           .EnableVertexAttribArray (toUint32 (s.attribLocation p.lineProgram "vert\x00")),
           .VertexAttribPointerWithOffset
              (toUint32 (s.attribLocation p.lineProgram "vert\x00"))
              2 gl.FLOAT false 16 0] ++ logErrorCalls s.debug ++
          [.GetAttribLocation p.lineProgram "normal\x00",
           .EnableVertexAttribArray (toUint32 (s.attribLocation p.lineProgram "normal\x00")),
           .VertexAttribPointerWithOffset
              (toUint32 (s.attribLocation p.lineProgram "normal\x00"))
              2 gl.FLOAT false 16 8] ++ logErrorCalls s.debug) ∧
      attribLayout (s2.callsSince s.calls.length) = [(2, 16, 0), (2, 16, 8)] ∧
      tilesStride 0 16 (attribLayout (s2.callsSince s.calls.length)) = true) := by
  obtain ⟨s1, h1, c1⟩ := glCreateBuffer_calls p points s hne
  obtain ⟨s2, h2, c2⟩ := glCreateLineBuffer_calls p points s hne
  refine ⟨⟨s1, h1, c1, ?_⟩, ⟨s2, h2, c2, ?_⟩⟩
  · rw [GLState.callsSince, c1, List.drop_left]
    cases s.debug <;> exact ⟨rfl, rfl⟩
  · rw [GLState.callsSince, c2, List.drop_left]
    cases s.debug <;> exact ⟨rfl, rfl⟩

/-- The layouts for a quad of four vertices and for a line of one vertex. -/
theorem buffer_layouts_witness :
    (∃ s1, painter.glCreateBuffer ⟨{}, 3, 6⟩
        [0, 0, 0, 0, 0, 1, 0, 0, 1, 0, 0, 1, 0, 0, 1, 1, 1, 0, 1, 1] GLState.start =
        .ok (0, s1) ∧
      attribLayout (s1.callsSince 0) = [(3, 20, 0), (2, 20, 12)]) ∧
    (∃ s2, painter.glCreateLineBuffer ⟨{}, 3, 6⟩ [0, 0, 1, 0] GLState.start = .ok (0, s2) ∧
      attribLayout (s2.callsSince 0) = [(2, 16, 0), (2, 16, 8)]) := by
  obtain ⟨⟨s1, h1, -, l1, -⟩, -⟩ := buffer_layouts ⟨{}, 3, 6⟩
    [0, 0, 0, 0, 0, 1, 0, 0, 1, 0, 0, 1, 0, 0, 1, 1, 1, 0, 1, 1] GLState.start
    (List.cons_ne_nil _ _)
  obtain ⟨-, ⟨s2, h2, -, l2, -⟩⟩ := buffer_layouts ⟨{}, 3, 6⟩ [0, 0, 1, 0] GLState.start
    (List.cons_ne_nil _ _)
  exact ⟨⟨s1, h1, l1⟩, ⟨s2, h2, l2⟩⟩

theorem compileShader_fails (source : String) (ty : Nat) (s : GLState)
    (h : s.compileStatus source ty = gl.FALSE) :
    ∃ err, compileShader source ty s = .error err := by
  simp [compileShader, gl.GetShaderiv, gl.CompileShader, gl.ShaderSource, gl.CreateShader,
    gl.fresh, logError_compileStatus, logError_shaderSrc, logError_shaderType, gl.emit, h,
    gl.COMPILE_STATUS]
  split <;> exact ⟨_, rfl⟩

theorem compileShader_ok (source : String) (ty : Nat) (s : GLState)
    (h : s.compileStatus source ty ≠ gl.FALSE) :
    ∃ s1, compileShader source ty s = .ok (s.genName s.created, s1) ∧
      s1.created = s.created + 1 ∧ s1.genName = s.genName ∧
      s1.compileStatus = s.compileStatus ∧ s1.debug = s.debug := by
  simp [compileShader, gl.GetShaderiv, gl.CompileShader, gl.ShaderSource, gl.CreateShader,
    gl.fresh, logError_compileStatus, logError_shaderSrc, logError_shaderType,
    logError_created, logError_genName, logError_debug, gl.emit, h, gl.COMPILE_STATUS]

theorem linkProgram_fields (vs fs : Nat) (s : GLState) :
    (gl.CreateProgram s).1 = s.genName s.created ∧
    (logError (gl.LinkProgram (gl.CreateProgram s).1 (gl.AttachShader (gl.CreateProgram s).1 fs
      (gl.AttachShader (gl.CreateProgram s).1 vs (gl.CreateProgram s).2)))).created =
        s.created + 1 ∧
    (logError (gl.LinkProgram (gl.CreateProgram s).1 (gl.AttachShader (gl.CreateProgram s).1 fs
      (gl.AttachShader (gl.CreateProgram s).1 vs (gl.CreateProgram s).2)))).genName =
        s.genName ∧
    (logError (gl.LinkProgram (gl.CreateProgram s).1 (gl.AttachShader (gl.CreateProgram s).1 fs
      (gl.AttachShader (gl.CreateProgram s).1 vs (gl.CreateProgram s).2)))).compileStatus =
        s.compileStatus := by
  simp [gl.CreateProgram, gl.LinkProgram, gl.AttachShader, gl.fresh, logError_created,
    logError_genName, logError_compileStatus, gl.emit]

/-- `Init` panics when one of the four shaders fails to compile. -/
theorem Init_error_of_compile_failure (src : ShaderSources) (p : painter) (s : GLState)
    (h : anyCompileFails src s) : ∃ err, p.Init src s = .error err := by
  unfold painter.Init
  by_cases h1 : s.compileStatus src.vertexShaderSource gl.VERTEX_SHADER = gl.FALSE
  · obtain ⟨e, he⟩ := compileShader_fails _ _ s h1
    simp [he]
  obtain ⟨s1, e1, c1, g1, k1, -⟩ := compileShader_ok _ _ s h1
  by_cases h2 : s.compileStatus src.fragmentShaderSource gl.FRAGMENT_SHADER = gl.FALSE
  · obtain ⟨e, he⟩ := compileShader_fails _ _ s1 (by rw [k1]; exact h2)
    simp [e1, he]
  obtain ⟨s2, e2, c2, g2, k2, -⟩ := compileShader_ok _ _ s1 (by rw [k1]; exact h2)
  obtain ⟨-, c3, g3, k3⟩ := linkProgram_fields (s.genName s.created) (s1.genName s1.created) s2
  by_cases h3 : s.compileStatus src.vertexLineShaderSource gl.VERTEX_SHADER = gl.FALSE
  · obtain ⟨e, he⟩ := compileShader_fails _ _ _ (by rw [k3, k2, k1]; exact h3)
    simp [e1, e2, he]
  obtain ⟨s4, e4, c4, g4, k4, -⟩ := compileShader_ok _ _ _ (by rw [k3, k2, k1]; exact h3)
  have h4 : s.compileStatus src.fragmentLineShaderSource gl.FRAGMENT_SHADER = gl.FALSE := by
    rcases h with h | h | h | h
    · exact absurd h h1
    · exact absurd h h2
    · exact absurd h h3
    · exact h
  obtain ⟨e, he⟩ := compileShader_fails _ _ s4 (by rw [k4, k3, k2, k1]; exact h4)
  simp [e1, e2, e4, he]

/-- `Init` completes when the four shaders compile, and stores the names of the two
programs it created, the third and the sixth object handed out. -/
theorem Init_ok_of_compile_success (src : ShaderSources) (p : painter) (s : GLState)
    (h : ¬ anyCompileFails src s) :
    ∃ s1, p.Init src s =
      .ok (⟨{}, s.genName (s.created + 2), s.genName (s.created + 5)⟩, s1) := by
  simp only [anyCompileFails, not_or] at h
  obtain ⟨h1, h2, h3, h4⟩ := h
  unfold painter.Init
  obtain ⟨s1, e1, c1, g1, k1, -⟩ := compileShader_ok _ _ s h1
  obtain ⟨s2, e2, c2, g2, k2, -⟩ := compileShader_ok _ _ s1 (by rw [k1]; exact h2)
  obtain ⟨n3, c3, g3, k3⟩ := linkProgram_fields (s.genName s.created) (s1.genName s1.created) s2
  obtain ⟨s4, e4, c4, g4, k4, -⟩ := compileShader_ok _ _ _ (by rw [k3, k2, k1]; exact h3)
  obtain ⟨s5, e5, c5, g5, k5, -⟩ := compileShader_ok _ _ s4 (by rw [k4, k3, k2, k1]; exact h4)
  simp only [e1, e2, e4, e5, Except.ok.injEq, Prod.mk.injEq, exists_eq_right',
    painter.mk.injEq, true_and]
  refine ⟨?_, ?_⟩
  · rw [n3, g2, g1, c2, c1]
  · show s5.genName s5.created = _
    rw [g5, g4, g3, g2, g1, c5, c4, c3, c2, c1]

/-- C6, as stated, fails: on a driver where the four shaders compile and neither
program links, `Init` does not fail, so "fails if and only if a shader fails to compile
or a program fails to link" is false. -/
theorem Init_link_failure_not_fatal :
    ¬ ((∃ err, painter.Init ShaderSources.sample ⟨{}, 0, 0⟩ GLState.noLink = .error err) ↔
      (anyCompileFails ShaderSources.sample GLState.noLink ∨ anyLinkFails GLState.noLink)) := by
  intro h
  have hl : anyLinkFails GLState.noLink := Or.inl rfl
  have hc : ¬ anyCompileFails ShaderSources.sample GLState.noLink := by
    simp [anyCompileFails, GLState.noLink, GLState.start, gl.FALSE]
  obtain ⟨err, he⟩ := h.mpr (Or.inr hl)
  obtain ⟨s1, hs⟩ := Init_ok_of_compile_success ShaderSources.sample ⟨{}, 0, 0⟩ GLState.noLink hc
  rw [hs] at he
  cases he

/-- C6, amended: `Init` fails if and only if at least one of the four shaders fails to
compile. When all four compile it completes and stores the names of the two programs
it created in `program` and `lineProgram`. The link status of the programs is never
read: whatever it is, the outcome is the same. -/
theorem Init_fails_iff_compile_fails (src : ShaderSources) (p : painter) (s : GLState) :
    ((∃ err, p.Init src s = .error err) ↔ anyCompileFails src s) ∧
    (¬ anyCompileFails src s →
      ∃ s1, p.Init src s =
        .ok (⟨{}, s.genName (s.created + 2), s.genName (s.created + 5)⟩, s1)) ∧
    (∀ ls : Nat → Int,
      (∃ err, p.Init src { s with linkStatus := ls } = .error err) ↔
        (∃ err, p.Init src s = .error err)) := by
  have key : ∀ s : GLState, (∃ err, p.Init src s = .error err) ↔ anyCompileFails src s := by
    intro s
    constructor
    · rintro ⟨err, he⟩
      by_contra hc
      obtain ⟨s1, hs⟩ := Init_ok_of_compile_success src p s hc
      rw [hs] at he
      cases he
    · exact Init_error_of_compile_failure src p s
  refine ⟨key s, Init_ok_of_compile_success src p s, ?_⟩
  intro ls
  rw [key, key]
  rfl

/-- With four shaders that compile and two programs that do not link, `Init` stores
the program names 2 and 5. -/
theorem Init_fails_iff_compile_fails_witness :
    ∃ s1, painter.Init ShaderSources.sample ⟨{}, 0, 0⟩ GLState.noLink =
      .ok (⟨{}, 2, 5⟩, s1) :=
  (Init_fails_iff_compile_fails ShaderSources.sample ⟨{}, 0, 0⟩ GLState.noLink).2.1
    (by simp [anyCompileFails, GLState.noLink, GLState.start, gl.FALSE])

/-- The `color` uniform for the transparent colour and for the opaque colour with
RGBA `(0x4000, 0x8000, 0, 0xffff)`. -/
theorem glDrawLine_color_uniform_witness :
    (∃ s1, painter.glDrawLine ⟨{}, 3, 6⟩ 2 ⟨(0, 0, 0, 0)⟩ 1 GLState.start = some s1 ∧
      s1.calls =
        [.UseProgram 6, .BlendFunc gl.SRC_ALPHA gl.ONE_MINUS_SRC_ALPHA,
         .GetUniformLocation 6 "color\x00", .Uniform4f 0 0 0 0 0,
         .GetUniformLocation 6 "lineWidth\x00", .Uniform1f 0 2,
         .GetUniformLocation 6 "feather\x00", .Uniform1f 0 1,
         .DrawArrays gl.TRIANGLES 0 6]) ∧
    (∃ s1, painter.glDrawLine ⟨{}, 3, 6⟩ 2 ⟨(0x4000, 0x8000, 0, 0xffff)⟩ 1 GLState.start =
        some s1 ∧
      s1.calls =
        [.UseProgram 6, .BlendFunc gl.SRC_ALPHA gl.ONE_MINUS_SRC_ALPHA,
         .GetUniformLocation 6 "color\x00",
         .Uniform4fv 0 1 [65537 / 262144, 65537 / 131072, 0, 1],
         .GetUniformLocation 6 "lineWidth\x00", .Uniform1f 0 2,
         .GetUniformLocation 6 "feather\x00", .Uniform1f 0 1,
         .DrawArrays gl.TRIANGLES 0 6]) := by
  refine ⟨?_, ?_⟩
  · obtain ⟨s1, h1, h2, -⟩ := glDrawLine_color_uniform ⟨{}, 3, 6⟩ 2 1 0 0 0 0 GLState.start
      (by norm_num) (by norm_num) (by norm_num) (by norm_num)
    exact ⟨s1, h1, by simpa [logErrorCalls, GLState.start] using h2 rfl⟩
  · obtain ⟨s1, h1, -, h3⟩ :=
      glDrawLine_color_uniform ⟨{}, 3, 6⟩ 2 1 0x4000 0x8000 0 0xffff GLState.start
        (by norm_num) (by norm_num) (by norm_num) (by norm_num)
    obtain ⟨c0, c1, c2, c3, e0, e1, e2, e3, -, -, -, -, hc⟩ := h3 (by norm_num)
    have v0 : roundFloat32 (16384 / 65535) = some (65537 / 262144) := by
      have h := roundFloat32_eval (16384 / 65535) (-2) 8388736 (by norm_num)
        (by rw [abs_of_pos (by norm_num)]; norm_num)
        (by rw [abs_of_pos (by norm_num)]; norm_num)
        (by rw [abs_lt]; constructor <;> norm_num)
        (by rw [abs_of_pos (by norm_num)]; norm_num)
      rw [h]
      norm_num
    have v1 : roundFloat32 (32768 / 65535) = some (65537 / 131072) := by
      have h := roundFloat32_eval (32768 / 65535) (-1) 8388736 (by norm_num)
        (by rw [abs_of_pos (by norm_num)]; norm_num)
        (by rw [abs_of_pos (by norm_num)]; norm_num)
        (by rw [abs_lt]; constructor <;> norm_num)
        (by rw [abs_of_pos (by norm_num)]; norm_num)
      rw [h]
      norm_num
    have v2 : roundFloat32 0 = some 0 := by simp [roundFloat32]
    have v3 : roundFloat32 1 = some 1 := by simpa using roundFloat32_natCast 1 (by norm_num)
    simp only [Nat.cast_ofNat, Nat.cast_zero, zero_div] at e0 e1 e2 e3
    rw [v0] at e0
    rw [v1] at e1
    rw [v2] at e2
    rw [div_self (by norm_num), v3] at e3
    cases e0
    cases e1
    cases e2
    cases e3
    exact ⟨s1, h1, by simpa [logErrorCalls, GLState.start] using hc⟩

theorem isHexDigit_val (c : Nat) (h : isHexDigit c) :
    fromHexChar c = some (hexVal c) ∧ c < 0x80 := by
  unfold isHexDigit at h
  unfold hexVal
  constructor
  · cases hc : fromHexChar c with
    | none => rw [hc] at h; cases h
    | some v => rfl
  · by_contra hlt
    have : fromHexChar c = none := by
      unfold fromHexChar
      rw [if_neg (by omega), if_neg (by omega), if_neg (by omega)]
    rw [this] at h
    cases h

theorem runesFrom_ascii (s : GoString) (h : ∀ c ∈ s, c < 0x80) : runesFrom 0 s = s := by
  induction s with
  | nil => rfl
  | cons b rest ih =>
    have hb : b < 0x80 := h b (List.mem_cons_self _ _)
    have hd : utf8.DecodeRune (b :: rest) = (b, 1) := by
      simp [utf8.DecodeRune, hb]
    rw [runesFrom, hd]
    simp only [Nat.sub_self]
    rw [ih (fun c hc => h c (List.mem_cons_of_mem _ hc))]

theorem toRunes_ascii (s : GoString) (h : ∀ c ∈ s, c < 0x80) : toRunes s = s :=
  runesFrom_ascii s h

theorem ofRunes_ascii (rs : List Nat) (h : ∀ c ∈ rs, c < 0x80) : ofRunes rs = rs := by
  induction rs with
  | nil => rfl
  | cons b rest ih =>
    have hb : b < 0x80 := h b (List.mem_cons_self _ _)
    have he : utf8.EncodeRune b = [b] := by
      unfold utf8.EncodeRune
      rw [if_pos (by omega)]
    have ih2 := ih (fun c hc => h c (List.mem_cons_of_mem _ hc))
    unfold ofRunes at ih2 ⊢
    simp [he, ih2]

theorem decode_six (a b c d e f : Nat) (ha : isHexDigit a) (hb : isHexDigit b)
    (hc : isHexDigit c) (hd : isHexDigit d) (he : isHexDigit e) (hf : isHexDigit f) :
    hexColor.decode [a, b, c, d, e, f] =
      .ok (.NRGBA (hexVal a * 16 + hexVal b) (hexVal c * 16 + hexVal d)
        (hexVal e * 16 + hexVal f) 0xff, none) := by
  simp [hexColor.decode, hex.DecodeString, (isHexDigit_val a ha).1, (isHexDigit_val b hb).1,
    (isHexDigit_val c hc).1, (isHexDigit_val d hd).1, (isHexDigit_val e he).1,
    (isHexDigit_val f hf).1, goIndex]

theorem decode_eight (a b c d e f g h : Nat) (ha : isHexDigit a) (hb : isHexDigit b)
    (hc : isHexDigit c) (hd : isHexDigit d) (he : isHexDigit e) (hf : isHexDigit f)
    (hg : isHexDigit g) (hh : isHexDigit h) :
    hexColor.decode [a, b, c, d, e, f, g, h] =
      .ok (.NRGBA (hexVal a * 16 + hexVal b) (hexVal c * 16 + hexVal d)
        (hexVal e * 16 + hexVal f) (hexVal g * 16 + hexVal h), none) := by
  simp [hexColor.decode, hex.DecodeString, (isHexDigit_val a ha).1, (isHexDigit_val b hb).1,
    (isHexDigit_val c hc).1, (isHexDigit_val d hd).1, (isHexDigit_val e he).1,
    (isHexDigit_val f hf).1, (isHexDigit_val g hg).1, (isHexDigit_val h hh).1, goIndex]

theorem color_three (a b c : Nat) (ha : isHexDigit a) (hb : isHexDigit b)
    (hc : isHexDigit c) :
    hexColor.color [a, b, c] = hexColor.decode [a, a, b, b, c, c] ∧
    hexColor.color [0x23, a, b, c] = hexColor.decode [a, a, b, b, c, c] := by
  have h1 := (isHexDigit_val a ha).2
  have h2 := (isHexDigit_val b hb).2
  have h3 := (isHexDigit_val c hc).2
  have hr : toRunes [a, b, c] = [a, b, c] :=
    toRunes_ascii _ (by
      intro x hx
      simp only [List.mem_cons, List.mem_singleton, List.not_mem_nil, or_false] at hx
      omega)
  have ho : ofRunes [a, a, b, b, c, c] = [a, a, b, b, c, c] :=
    ofRunes_ascii _ (by
      intro x hx
      simp only [List.mem_cons, List.mem_singleton, List.not_mem_nil, or_false] at hx
      omega)
  have hi : runesAt [a, b, c] [0, 0, 1, 1, 2, 2] = .ok [a, a, b, b, c, c] := rfl
  constructor
  · simp [hexColor.color, hr, hi, ho]
  · have h0 : goIndex [0x23, a, b, c] 0 = .ok 0x23 := rfl
    simp [hexColor.color, hexColor.color4, h0, hr, hi, ho]

theorem color_four (a b c d : Nat) (ha : isHexDigit a) (hb : isHexDigit b)
    (hc : isHexDigit c) (hd : isHexDigit d) :
    hexColor.color [a, b, c, d] = hexColor.decode [a, a, b, b, c, c, d, d] ∧
    hexColor.color [0x23, a, b, c, d] = hexColor.decode [a, a, b, b, c, c, d, d] := by
  have h1 := (isHexDigit_val a ha).2
  have h2 := (isHexDigit_val b hb).2
  have h3 := (isHexDigit_val c hc).2
  have h4 := (isHexDigit_val d hd).2
  have hne : a ≠ 0x23 := by
    intro h
    subst h
    exact absurd ha (by unfold isHexDigit; decide)
  have hr : toRunes [a, b, c, d] = [a, b, c, d] :=
    toRunes_ascii _ (by
      intro x hx
      simp only [List.mem_cons, List.mem_singleton, List.not_mem_nil, or_false] at hx
      omega)
  have ho : ofRunes [a, a, b, b, c, c, d, d] = [a, a, b, b, c, c, d, d] :=
    ofRunes_ascii _ (by
      intro x hx
      simp only [List.mem_cons, List.mem_singleton, List.not_mem_nil, or_false] at hx
      omega)
  have hi : runesAt [a, b, c, d] [0, 0, 1, 1, 2, 2, 3, 3] = .ok [a, a, b, b, c, c, d, d] := rfl
  have h0 : goIndex [a, b, c, d] 0 = .ok a := rfl
  constructor
  · simp [hexColor.color, hexColor.color4, h0, hne, hr, hi, ho]
  · simp [hexColor.color, hexColor.color4, h0, hne, hr, hi, ho]

/-- C12: for every string `s` of 3, 4, 6 or 8 hexadecimal digits, `hexColor(s).color()`
and `hexColor("#" + s).color()` both return, without error, the same `NRGBA` colour:
the one whose `R`, `G`, `B` (and `A`) are the consecutive bytes of `s`, each digit of a
string of 3 or 4 being doubled first, with `A = 0xff` when `s` has no alpha digits. -/
theorem hexColor_color_hex_digits (s : GoString) (hdig : ∀ c ∈ s, isHexDigit c)
    (hlen : s.length = 3 ∨ s.length = 4 ∨ s.length = 6 ∨ s.length = 8) :
    hexColor.color s = .ok (hexColor.meaning s, none) ∧
    hexColor.color (0x23 :: s) = .ok (hexColor.meaning s, none) := by
  rcases hlen with hl | hl | hl | hl
  · match s, hl with
    | [a, b, c], _ =>
      simp only [List.mem_cons, List.mem_singleton, List.not_mem_nil, or_false,
        forall_eq_or_imp, forall_eq] at hdig
      obtain ⟨ha, hb, hc⟩ := hdig
      obtain ⟨e1, e2⟩ := color_three a b c ha hb hc
      rw [e1, e2, decode_six a a b b c c ha ha hb hb hc hc]
      simp [hexColor.meaning]
  · match s, hl with
    | [a, b, c, d], _ =>
      simp only [List.mem_cons, List.mem_singleton, List.not_mem_nil, or_false,
        forall_eq_or_imp, forall_eq] at hdig
      obtain ⟨ha, hb, hc, hd⟩ := hdig
      obtain ⟨e1, e2⟩ := color_four a b c d ha hb hc hd
      rw [e1, e2, decode_eight a a b b c c d d ha ha hb hb hc hc hd hd]
      simp [hexColor.meaning]
  · match s, hl with
    | [a, b, c, d, e, f], _ =>
      simp only [List.mem_cons, List.mem_singleton, List.not_mem_nil, or_false,
        forall_eq_or_imp, forall_eq] at hdig
      obtain ⟨ha, hb, hc, hd, he, hf⟩ := hdig
      have e1 : hexColor.color [a, b, c, d, e, f] = hexColor.decode [a, b, c, d, e, f] := by
        simp [hexColor.color]
      have e2 : hexColor.color [0x23, a, b, c, d, e, f] =
          hexColor.decode [a, b, c, d, e, f] := by
        simp [hexColor.color]
      rw [e1, e2, decode_six a b c d e f ha hb hc hd he hf]
      simp [hexColor.meaning]
  · match s, hl with
    | [a, b, c, d, e, f, g, h], _ =>
      simp only [List.mem_cons, List.mem_singleton, List.not_mem_nil, or_false,
        forall_eq_or_imp, forall_eq] at hdig
      obtain ⟨ha, hb, hc, hd, he, hf, hg, hh⟩ := hdig
      have e1 : hexColor.color [a, b, c, d, e, f, g, h] =
          hexColor.decode [a, b, c, d, e, f, g, h] := by
        simp [hexColor.color]
      have e2 : hexColor.color [0x23, a, b, c, d, e, f, g, h] =
          hexColor.decode [a, b, c, d, e, f, g, h] := by
        simp [hexColor.color]
      rw [e1, e2, decode_eight a b c d e f g h ha hb hc hd he hf hg hh]
      simp [hexColor.meaning]

/-- The strings `fa0` and `1a2B3c80`, with and without the `#`. -/
theorem hexColor_color_hex_digits_witness :
    (hexColor.color (GoString.ascii "fa0") = .ok (.NRGBA 0xff 0xaa 0x00 0xff, none) ∧
      hexColor.color (GoString.ascii "#fa0") = .ok (.NRGBA 0xff 0xaa 0x00 0xff, none)) ∧
    (hexColor.color (GoString.ascii "1a2B3c80") = .ok (.NRGBA 0x1a 0x2b 0x3c 0x80, none) ∧
      hexColor.color (GoString.ascii "#1a2B3c80") =
        .ok (.NRGBA 0x1a 0x2b 0x3c 0x80, none)) :=
  ⟨hexColor_color_hex_digits (GoString.ascii "fa0") (by decide) (by decide),
   hexColor_color_hex_digits (GoString.ascii "1a2B3c80") (by decide) (by decide)⟩

/-- C11, at the failing input: the schema whose `Colors` holds `primary = "€"` (three
bytes, one rune). `hexColor.color` takes the case for three digits, indexes the second
rune of one and panics, so `tomlTheme.Color` does not return the fallback colour. -/
theorem tomlTheme_Color_multibyte_panics :
    tomlTheme.Color ⟨schema.euro, Theme.blank⟩ (GoString.ascii "primary") VariantDark =
      .error "runtime error: index out of range" := rfl

theorem lookup_absent (m : GoString → Option hexColor) (name : GoString)
    (log : List GoError) (h : m name = none) :
    tomlTheme.lookup m name log = .ok (none, log) := by
  simp [tomlTheme.lookup, h]

theorem lookup_parsed (m : GoString → Option hexColor) (name : GoString)
    (log : List GoError) (val : hexColor) (c : ColorValue) (h : m name = some val)
    (hc : hexColor.color val = .ok (c, none)) :
    tomlTheme.lookup m name log = .ok (some c, log) := by
  simp [tomlTheme.lookup, h, hc]

theorem lookup_failed (m : GoString → Option hexColor) (name : GoString)
    (log : List GoError) (val : hexColor) (c : ColorValue) (err : GoError)
    (h : m name = some val) (hc : hexColor.color val = .ok (c, some err)) :
    tomlTheme.lookup m name log = .ok (none, log ++ [err]) := by
  simp [tomlTheme.lookup, h, hc]

theorem Color_first_lookup (t : tomlTheme) (name : GoString) (variant : Nat) :
    (if variant = VariantLight then tomlTheme.lookup t.data.LightColors name []
      else if variant = VariantDark then tomlTheme.lookup t.data.DarkColors name []
      else .ok (none, [])) =
    tomlTheme.lookup (t.data.variantColors variant) name [] := by
  unfold schema.variantColors
  split
  · rfl
  · split
    · rfl
    · rfl

/-- What `tomlTheme.Color` returns when no entry makes `hexColor.color` panic: the
variant's own entry when it parses, else the `Colors` entry when it parses, else the
fallback theme's colour. -/
theorem tomlTheme_Color_without_panic (t : tomlTheme) (name : GoString) (variant : Nat) :
    (∀ val c, t.data.variantColors variant name = some val →
      hexColor.color val = .ok (c, none) →
      ∃ log, t.Color name variant = .ok (c, log)) ∧
    (∀ val c, (t.data.variantColors variant name = none ∨
        ∃ v0 c0 e0, t.data.variantColors variant name = some v0 ∧
          hexColor.color v0 = .ok (c0, some e0)) →
      t.data.Colors name = some val → hexColor.color val = .ok (c, none) →
      ∃ log, t.Color name variant = .ok (c, log)) ∧
    ((t.data.variantColors variant name = none ∨
        ∃ v0 c0 e0, t.data.variantColors variant name = some v0 ∧
          hexColor.color v0 = .ok (c0, some e0)) →
      (t.data.Colors name = none ∨
        ∃ v1 c1 e1, t.data.Colors name = some v1 ∧ hexColor.color v1 = .ok (c1, some e1)) →
      ∃ log, t.Color name variant = .ok (t.fallback.Color name variant, log)) := by
  refine ⟨?_, ?_, ?_⟩
  · intro val c hv hc
    unfold tomlTheme.Color
    simp only [Color_first_lookup, lookup_parsed _ name [] val c hv hc]
    exact ⟨_, rfl⟩
  · intro val c hown hv hc
    unfold tomlTheme.Color
    rcases hown with h0 | ⟨v0, c0, e0, h0, h1⟩
    · simp only [Color_first_lookup, lookup_absent _ name [] h0,
        lookup_parsed _ name _ val c hv hc]
      exact ⟨_, rfl⟩
    · simp only [Color_first_lookup, lookup_failed _ name [] v0 c0 e0 h0 h1,
        lookup_parsed _ name _ val c hv hc]
      exact ⟨_, rfl⟩
  · intro hown hcol
    unfold tomlTheme.Color
    rcases hown with h0 | ⟨v0, c0, e0, h0, h1⟩ <;>
      rcases hcol with g0 | ⟨v1, c1, e1, g0, g1⟩
    · simp only [Color_first_lookup, lookup_absent _ name [] h0, lookup_absent _ name _ g0]
      exact ⟨_, rfl⟩
    · simp only [Color_first_lookup, lookup_absent _ name [] h0,
        lookup_failed _ name _ v1 c1 e1 g0 g1]
      exact ⟨_, rfl⟩
    · simp only [Color_first_lookup, lookup_failed _ name [] v0 c0 e0 h0 h1,
        lookup_absent _ name _ g0]
      exact ⟨_, rfl⟩
    · simp only [Color_first_lookup, lookup_failed _ name [] v0 c0 e0 h0 h1,
        lookup_failed _ name _ v1 c1 e1 g0 g1]
      exact ⟨_, rfl⟩

/-- What `tomlTheme.Size` returns: the schema's size when the name is in `Sizes`, the
fallback theme's size when it is not. -/
theorem tomlTheme_Size_value (t : tomlTheme) (name : GoString) :
    (∀ val, t.data.Sizes name = some val → t.Size name = val) ∧
    (t.data.Sizes name = none → t.Size name = t.fallback.Size name) := by
  constructor
  · intro val h
    simp [tomlTheme.Size, h]
  · intro h
    simp [tomlTheme.Size, h]

/-- C13, at the failing input: the listing `a.go`, `b.png`, `c.png` with
`noheader = false`. The entry at index 0 is skipped, so `noheader` is never set, and
the file header is written twice, once before each of the two resources. -/
theorem dirBundle_header_written_twice :
    (Bundler.dirBundle BundleEnv.sample Bundler.start "res" ⟨[], []⟩).2.2.written =
      [.WriteString fileHeader, .WriteString "\n\npackage ", .WriteString "main",
       .WriteString "\n\nimport \"fyne.io/fyne/v2\"\n\n",
       .Fprintf "resourceBPng" "b.png" [],
       .WriteString fileHeader, .WriteString "\n\npackage ", .WriteString "main",
       .WriteString "\n\nimport \"fyne.io/fyne/v2\"\n\n",
       .Fprintf "resourceCPng" "c.png" []] ∧
    headerCount (Bundler.dirBundle BundleEnv.sample Bundler.start "res" ⟨[], []⟩).2.2.written
      = 2 := by
  decide

/-- An entry whose extension is `.go` is skipped by the loop of `dirBundle`: nothing
is written for it and the bundler is left as it was. -/
theorem dirBundleFrom_skips_go (env : BundleEnv) (dirpath filename : String) (i : Nat)
    (rest : List String) (st : Bundler × BundleOut) (h : path.Ext filename = ".go") :
    Bundler.dirBundleFrom env dirpath i (filename :: rest) st =
      Bundler.dirBundleFrom env dirpath (i + 1) rest st := by
  obtain ⟨b, out⟩ := st
  simp [Bundler.dirBundleFrom, h]

theorem replaceFrom_empty (inMatch : Bool) (l : List Char) :
    filenameRegex.replaceFrom [] inMatch l = l.filter isAlnum := by
  induction l generalizing inMatch with
  | nil => rfl
  | cons c rest ih =>
    by_cases hc : isAlnum c = true
    · simp [filenameRegex.replaceFrom, hc, ih]
    · simp [filenameRegex.replaceFrom, hc, ih]

/-- C15: `sanitiseName(file, prefix)` is the prefix followed by the characters of the
title-cased file name that lie in `[a-zA-Z0-9]`, in their order, and by nothing else;
`example.png` with the prefix `file` gives `fileExamplePng`; and `doBundle`, when
`Bundler.name` is empty, takes `sanitiseName` of the base name of the file path as the
name and writes the resource under it. -/
theorem sanitiseName_keeps_alnum (env : BundleEnv) (file pfx : String) (b : Bundler)
    (filepath : String) (out : BundleOut) :
    (∃ name : String, sanitiseName env.unicode file pfx = pfx ++ name ∧
      name.toList = (strings.Title env.unicode file).toList.filter isAlnum ∧
      ∀ c ∈ name.toList, isAlnum c = true) ∧
    sanitiseName env.unicode "example.png" "file" = "fileExamplePng" ∧
    (b.name = "" →
      b.doBundle env filepath out =
        ({ b with name := sanitiseName env.unicode (path.Base filepath) b.pfx },
          writeResource env filepath (sanitiseName env.unicode (path.Base filepath) b.pfx)
            (if !b.noheader then writeHeader b.pkg out else out))) := by
  refine ⟨⟨filenameRegex.ReplaceAllString (strings.Title env.unicode file) "", rfl, ?_, ?_⟩,
    rfl, ?_⟩
  · simp [filenameRegex.ReplaceAllString, replaceFrom_empty]
  · intro c hc
    simp [filenameRegex.ReplaceAllString, replaceFrom_empty, List.mem_filter] at hc
    exact hc.2
  · intro h
    simp [Bundler.doBundle, h]

/-- The name `doBundle` gives the resource of `img/my-icon 2.png` under the prefix
`resource`. -/
theorem sanitiseName_keeps_alnum_witness :
    (Bundler.doBundle BundleEnv.sample Bundler.start "img/my-icon 2.png" ⟨[], []⟩).1.name =
      "resourceMyIcon2Png" := by
  have h := (sanitiseName_keeps_alnum BundleEnv.sample "" "" Bundler.start
    "img/my-icon 2.png" ⟨[], []⟩).2.2 rfl
  rw [h]
  decide

/-- C14: `Resize(s)` with `s` equal to the current size leaves the rectangle and the
count of refreshes as they were. With a different size the size becomes `s`, no other
field changes, and one refresh is asked for when `StrokeWidth` is not zero, none when
it is zero. -/
theorem Rectangle_Resize_effect (r : canvas.Rectangle) (s : fyne.Size) (n : Nat) :
    (s = r.baseObject.Size → r.Resize s n = (r, n)) ∧
    (s ≠ r.baseObject.Size →
      (r.Resize s n).1.baseObject.Size = s ∧
      (r.Resize s n).1 = { r with baseObject := { r.baseObject with size := s } } ∧
      (r.StrokeWidth ≠ 0 → (r.Resize s n).2 = n + 1) ∧
      (r.StrokeWidth = 0 → (r.Resize s n).2 = n)) := by
  constructor
  · intro h
    simp [canvas.Rectangle.Resize, h]
  · intro h
    have h2 : ¬ s = r.baseObject.size := h
    by_cases hw : r.StrokeWidth = 0
    · simp [canvas.Rectangle.Resize, h2, hw, canvas.baseObject.Resize, canvas.baseObject.Size]
    · simp [canvas.Rectangle.Resize, h2, hw, canvas.baseObject.Resize, canvas.baseObject.Size,
        canvas.Refresh]

/-- A stroked 1x1 rectangle resized to 2x3: the size changes and one refresh is asked
for; resized to 1x1: nothing happens. -/
theorem Rectangle_Resize_effect_witness :
    (canvas.Rectangle.Resize ⟨⟨⟨1, 1⟩, ⟨0, 0⟩, false, ⟨0, 0⟩⟩, .nil, .nil, 2, 0⟩ ⟨2, 3⟩ 0).2 = 1 ∧
    (canvas.Rectangle.Resize ⟨⟨⟨1, 1⟩, ⟨0, 0⟩, false, ⟨0, 0⟩⟩, .nil, .nil, 2, 0⟩ ⟨2, 3⟩
      0).1.baseObject.Size = ⟨2, 3⟩ ∧
    canvas.Rectangle.Resize ⟨⟨⟨1, 1⟩, ⟨0, 0⟩, false, ⟨0, 0⟩⟩, .nil, .nil, 2, 0⟩ ⟨1, 1⟩ 0 =
      (⟨⟨⟨1, 1⟩, ⟨0, 0⟩, false, ⟨0, 0⟩⟩, .nil, .nil, 2, 0⟩, 0) :=
  ⟨((Rectangle_Resize_effect ⟨⟨⟨1, 1⟩, ⟨0, 0⟩, false, ⟨0, 0⟩⟩, .nil, .nil, 2, 0⟩ ⟨2, 3⟩ 0).2
      (by decide)).2.2.1 (by decide),
   ((Rectangle_Resize_effect ⟨⟨⟨1, 1⟩, ⟨0, 0⟩, false, ⟨0, 0⟩⟩, .nil, .nil, 2, 0⟩ ⟨2, 3⟩ 0).2
      (by decide)).1,
   (Rectangle_Resize_effect ⟨⟨⟨1, 1⟩, ⟨0, 0⟩, false, ⟨0, 0⟩⟩, .nil, .nil, 2, 0⟩ ⟨1, 1⟩ 0).1
      rfl⟩

theorem doBundle_noheader (env : BundleEnv) (b : Bundler) (filepath : String)
    (out : BundleOut) (h : b.noheader = true) :
    (b.doBundle env filepath out).1.noheader = true ∧
    headerCount (b.doBundle env filepath out).2.written = headerCount out.written := by
  unfold Bundler.doBundle writeResource
  constructor
  · by_cases hn : b.name = "" <;> simp [h, hn]
  · cases hl : env.LoadResourceFromPath filepath <;>
      simp [h, hl, headerCount, List.count_append, List.count_cons]

theorem dirBundleFrom_noheader (env : BundleEnv) (dirpath : String) (files : List String)
    (i : Nat) (b : Bundler) (out : BundleOut) (h : b.noheader = true) :
    headerCount (Bundler.dirBundleFrom env dirpath i files (b, out)).2.written =
      headerCount out.written := by
  induction files generalizing i b out with
  | nil => rfl
  | cons f rest ih =>
    by_cases hgo : path.Ext f = ".go"
    · rw [dirBundleFrom_skips_go env dirpath f i rest (b, out) hgo]
      exact ih (i + 1) b out h
    · have hb : ({ b with name := "" } : Bundler).noheader = true := h
      obtain ⟨h1, h2⟩ := doBundle_noheader env { b with name := "" }
        (path.Join env [dirpath, f]) out hb
      simp only [Bundler.dirBundleFrom, hgo, if_false]
      rw [ih, h2]
      by_cases hi : i = 0 <;> simp [hi, h1]

/-- When the first entry of the listing is not a `.go` file (and the package name is
not the text of the header itself) `dirBundle` writes the header once. -/
theorem dirBundleFrom_header_once (env : BundleEnv) (dirpath f : String)
    (rest : List String) (b : Bundler) (out : BundleOut) (hgo : path.Ext f ≠ ".go")
    (hh : b.noheader = false) (hp : b.pkg ≠ fileHeader) :
    headerCount (Bundler.dirBundleFrom env dirpath 0 (f :: rest) (b, out)).2.written =
      headerCount out.written + 1 := by
  simp only [Bundler.dirBundleFrom, hgo, if_false, if_true]
  rw [dirBundleFrom_noheader _ _ _ _ _ _ rfl]
  have hp2 : ¬ (fileHeader = b.pkg) := fun e => hp e.symm
  unfold Bundler.doBundle writeResource writeHeader
  cases hl : env.LoadResourceFromPath (path.Join env [dirpath, f]) <;>
    simp [hh, hl, headerCount, List.count_append, List.count_cons, hp2] <;> decide

end Fyne
